import Mathlib

/-
  Verification development for kube-router's IPVS sync engine
  (pkg/controllers/proxy/service_endpoints_sync.go).

  The Go source is shallowly embedded as pure Lean functions over an explicit
  kernel/controller state `St`.  Fallible host-adapter operations (the
  `nsc.ln` linuxNetworking interface, iptables helpers, and the FW-mark
  registry) are not part of the given source file; following the natural
  language specification they are modelled as deterministic state
  transformers whose failures are injected through an environment `Env` of
  fault oracles, so that theorems can quantify over every pattern of
  partial failure.  Go maps are embedded as association lists (iteration
  order is the list order, a faithful parametrisation of Go's unspecified
  map order), machine strings as `String`, and `error` returns as
  `Option String` (`none` = nil).
-/

/-- EndpointInfo from the data model: backend ip, port and whether the
backend pod runs on this node. -/
structure endpointsInfo where
  ip : String
  port : Nat
  isLocal : Bool
deriving Repr, DecidableEq

/-- ServiceInfo from the data model.  The Go field `local` is rendered as
`local'` because `local` is a Lean keyword; `nsName` renders the Go field
`namespace` for the same reason. -/
structure serviceInfo where
  nsName : String
  name : String
  protocol : String
  clusterIP : String
  port : Nat
  nodePort : Nat
  externalIPs : List String
  loadBalancerIPs : List String
  skipLbIps : Bool
  local' : Bool
  sessionAffinity : Bool
  sessionAffinityTimeoutSeconds : Nat
  scheduler : String
  flags : Nat
  directServerReturn : Bool
  directServerReturnMethod : String
deriving Repr, DecidableEq

/-- An IPVS virtual-service record as listed from the kernel: `Address` is
`none` for firewall-mark keyed services (mirroring a nil `net.IP`).
Scheduler/affinity attributes are elided: no claim concerns them and the
modelled `ipvsAddService` never updates them. -/
structure IpvsSvc where
  Address : Option String
  Protocol : Nat
  Port : Nat
  FWMark : Nat
deriving Repr, DecidableEq

/-- An IPVS real-server record (`ipvs.Destination`).  `AddressFamily` is
always AF_INET in the source and is elided; `tunnelMode` renders
`ConnectionFlags = ConnectionFlagTunnel`. -/
structure Destination where
  Address : String
  Port : Nat
  Weight : Nat
  tunnelMode : Bool
deriving Repr, DecidableEq

/-- Trace of the host-adapter calls that the claims talk about. -/
inductive Call where
  | ipvsAddServer (svc : Option IpvsSvc) (dst : Destination)
  | cleanupMangleTableRule (ip proto port fwmark : String)
deriving Repr, DecidableEq

/-- The mutable state a sync pass reads and writes: the dummy-interface
address list, the kernel IPVS table (services and destination pairs, the
first component of a pair being the service handle the destination was
added under), the saved lines of the iptables mangle table, and the two
long-lived controller maps `fwMarkMap` and `metricsMap`.  `trace` records
the adapter calls of interest. -/
structure St where
  dummyAddrs : List String
  svcs : List IpvsSvc
  dests : List (Option IpvsSvc × Destination)
  mangle : List String
  fwMarkMap : List (Nat × (String × String × Nat))
  metricsMap : List (String × List String)
  trace : List Call
deriving Repr, DecidableEq

/-- Controller configuration consumed during a pass.  An excluded CIDR is
embedded as the (finite) set of addresses it contains. -/
structure Nsc where
  nodeIP : String
  nodeportBindOnAllIP : Bool
  excludedCidrs : List (List String)
  dsrTCPMSS : Nat

/-- Fault/oracle environment: decides which host-adapter calls fail and
with what error text, and supplies external inputs (local IP list, the
FW-mark hash).  A `none`/`false` everywhere instance models a kernel in
which every operation succeeds. -/
structure Env where
  failGetKubeDummyInterface : Bool
  failIpvsGetServices : Bool
  ipAddrAddErr : String → Option String
  ipAddrDelErr : String → Option String
  failAddrList : Bool
  failIpvsAddService : String → Nat → Nat → Bool
  failIpvsAddFWMarkService : Nat → Bool
  failIpvsAddServer : Option IpvsSvc → Destination → Bool
  failIpvsDelService : IpvsSvc → Bool
  failIpvsGetDestinations : IpvsSvc → Bool
  failIpvsDeleteDestination : IpvsSvc → Destination → Bool
  getAllLocalIPs : Option (List String)
  failSetupMangleTableRule : Bool
  failCleanupMangleTableRule : Bool
  failSaveMangle : Bool
  failRouteVIPTrafficToDirector : Bool
  failAddDSRIPInsidePodNetNamespace : Bool
  failSetupPolicyRoutingForDSR : Bool
  failSetupRoutesForExternalIPForDSR : Bool
  failSyncIpvsFirewall : Bool
  hashTuple : String → String → String → Nat

/-- The all-success environment: no adapter call fails. -/
def envOK : Env where
  failGetKubeDummyInterface := false
  failIpvsGetServices := false
  ipAddrAddErr := fun _ => none
  ipAddrDelErr := fun _ => none
  failAddrList := false
  failIpvsAddService := fun _ _ _ => false
  failIpvsAddFWMarkService := fun _ => false
  failIpvsAddServer := fun _ _ => false
  failIpvsDelService := fun _ => false
  failIpvsGetDestinations := fun _ => false
  failIpvsDeleteDestination := fun _ _ => false
  getAllLocalIPs := some []
  failSetupMangleTableRule := false
  failCleanupMangleTableRule := false
  failSaveMangle := false
  failRouteVIPTrafficToDirector := false
  failAddDSRIPInsidePodNetNamespace := false
  failSetupPolicyRoutingForDSR := false
  failSetupRoutesForExternalIPForDSR := false
  failSyncIpvsFirewall := false
  hashTuple := fun _ _ _ => 1

/-- Modelled from the spec: `serviceKey(ip, proto, port)`; the repository's
`generateIPPortID` helper is defined outside the given source file. -/
def generateIPPortID (ip proto port : String) : String :=
  ip ++ "-" ++ proto ++ "-" ++ port

/-- Modelled from the spec: `endpointID(ip, port)`; the repository's
`generateEndpointID` helper is defined outside the given source file. -/
def generateEndpointID (ip port : String) : String :=
  ip ++ ":" ++ port

/-- Modelled from the spec: `hasActiveEndpoints` (defined outside the given
source file) reports whether any backend of the service runs on this node. -/
def hasActiveEndpoints (endpoints : List endpointsInfo) : Bool :=
  endpoints.any (·.isLocal)

/-- Modelled from the spec: the textual protocol used when a kernel
protocol number has no tcp/udp mapping (constant defined outside the given
source file). -/
def noneProtocol : String := "none"

/-- Modelled from the spec: conversion of the service protocol string to
the kernel (syscall) protocol number; helper defined outside the given
source file. -/
def convertSvcProtoToSysCallProto (proto : String) : Nat :=
  if proto == "tcp" then 6 else if proto == "udp" then 17 else 0

/-- Modelled from the spec: conversion of a kernel protocol number back to
the textual form, failing closed to `noneProtocol`; helper defined outside
the given source file. -/
def convertSysCallProtoToSvcProto (proto : Nat) : String :=
  if proto == 6 then "tcp" else if proto == 17 then "udp" else noneProtocol

/-- Modelled from the spec: netlink's distinguishable "already has address"
error text (constant defined outside the given source file). -/
def IfaceHasAddr : String := "file exists"

/-- Modelled from the spec: netlink's distinguishable "no such address"
error text (constant defined outside the given source file). -/
def IfaceHasNoAddr : String := "cannot assign requested address"

/-- Modelled from the spec: the DSR method selector for tunnel mode
(constant defined outside the given source file). -/
def tunnelInterfaceType : String := "tunnel"

/-- Go's `strings.Contains`, embedded over character lists:
does `pat` start at the head of `s`? -/
def charsStartWith : List Char → List Char → Bool
  | [], _ => true
  | _ :: _, [] => false
  | p :: ps, c :: cs => p == c && charsStartWith ps cs

/-- Go's `strings.Contains`, embedded over character lists: substring
search at every position of `s`. -/
def charsContain (pat : List Char) : List Char → Bool
  | [] => charsStartWith pat []
  | c :: cs => charsStartWith pat (c :: cs) || charsContain pat cs

/-- Go's `strings.Contains (s, pat)`. -/
def strContains (s pat : String) : Bool :=
  charsContain pat.toList s.toList

/-- First dash-separated field of a service key: `strings.SplitN(k, "-", 3)[0]`. -/
def firstDashField (k : String) : String :=
  String.mk (k.toList.takeWhile (fun c => c != '-'))

/-- Go's `strconv.FormatInt(mark, 16)`: lowercase hexadecimal rendering. -/
def natToHex (n : Nat) : String :=
  String.mk (Nat.toDigits 16 n)

/-- The per-pass active map `activeServiceEndpointMap`, a Go
`map[string][]string` embedded as an association list without duplicate
keys. -/
abbrev ActiveMap := List (String × List String)

/-- Go map read with zero value: `m[k]` is the empty slice when absent. -/
def amGet (m : ActiveMap) (k : String) : List String :=
  (m.lookup k).getD []

/-- Go map write `m[k] = v`: replace in place, or add the key. -/
def amSet : ActiveMap → String → List String → ActiveMap
  | [], k, v => [(k, v)]
  | (k', v') :: rest, k, v =>
    if k' == k then (k, v) :: rest else (k', v') :: amSet rest k v

/-- Go `m[k] = append(m[k], x)`. -/
def amAppend (m : ActiveMap) (k x : String) : ActiveMap :=
  amSet m k (amGet m k ++ [x])

/-- Modelled from the spec: `ln.getKubeDummyInterface` ensures the dummy
interface exists (adapter method defined outside the given source file);
only its success or failure is observable here. -/
def getKubeDummyInterface (env : Env) : Option String :=
  if env.failGetKubeDummyInterface then some "dummy interface error" else none

/-- Modelled from the spec: `ln.ipvsGetServices` snapshots the IPVS table
(adapter method defined outside the given source file). -/
def ipvsGetServices (env : Env) (st : St) : Except String (List IpvsSvc) :=
  if env.failIpvsGetServices then .error "ipvs list error" else .ok st.svcs

/-- Modelled from the spec: `ln.ipAddrAdd` assigns an address to the dummy
interface; "already has address" is treated as success inside the adapter
(method defined outside the given source file). -/
def ipAddrAdd (env : Env) (st : St) (ip : String) : Option String × St :=
  match env.ipAddrAddErr ip with
  | some e => (some e, st)
  | none =>
    (none, { st with dummyAddrs :=
      if st.dummyAddrs.contains ip then st.dummyAddrs else st.dummyAddrs ++ [ip] })

/-- Modelled from the spec: `ln.ipAddrDel` removes an address from the
dummy interface (method defined outside the given source file). -/
def ipAddrDel (env : Env) (st : St) (ip : String) : Option String × St :=
  match env.ipAddrDelErr ip with
  | some e => (some e, st)
  | none => (none, { st with dummyAddrs := st.dummyAddrs.filter (fun a => a != ip) })

/-- Modelled from the spec: `netlink.AddrList` on the dummy interface. -/
def addrList (env : Env) (st : St) : Except String (List String) :=
  if env.failAddrList then .error "addr list error" else .ok st.dummyAddrs

/-- Modelled from the spec: `ln.ipvsAddService` ensures an IPVS virtual
service keyed by (vip, protocol, port) exists and returns its handle
(method defined outside the given source file; idempotent create, querying
the live table rather than the caller's snapshot). -/
def ipvsAddService (env : Env) (st : St) (vip : String) (protocol port : Nat) :
    Except String IpvsSvc × St :=
  if env.failIpvsAddService vip protocol port then (.error "ipvs add service error", st)
  else
    let svc : IpvsSvc := ⟨some vip, protocol, port, 0⟩
    (.ok svc, { st with svcs := if st.svcs.contains svc then st.svcs else st.svcs ++ [svc] })

/-- Modelled from the spec: `ln.ipvsAddFWMarkService` ensures a
firewall-mark keyed IPVS virtual service; such services list with a nil
address and no protocol (method defined outside the given source file). -/
def ipvsAddFWMarkService (env : Env) (st : St) (fwMark : Nat) :
    Except String IpvsSvc × St :=
  if env.failIpvsAddFWMarkService fwMark then (.error "ipvs add fwmark service error", st)
  else
    let svc : IpvsSvc := ⟨none, 0, 0, fwMark⟩
    (.ok svc, { st with svcs := if st.svcs.contains svc then st.svcs else st.svcs ++ [svc] })

/-- Modelled from the spec: `ln.ipvsAddServer` ensures a real server on a
virtual service; "already exists" is not an error (method defined outside
the given source file).  The call is traced because claim C9 concerns an
invocation with a nil service handle. -/
def ipvsAddServer (env : Env) (st : St) (svc : Option IpvsSvc) (dst : Destination) :
    Option String × St :=
  let st := { st with trace := st.trace ++ [Call.ipvsAddServer svc dst] }
  if env.failIpvsAddServer svc dst then (some "ipvs add server error", st)
  else
    (none, { st with dests :=
      if st.dests.contains (svc, dst) then st.dests else st.dests ++ [(svc, dst)] })

/-- Modelled from the spec: `ln.ipvsDelService` removes a virtual service
and its destinations from the kernel (method defined outside the given
source file). -/
def ipvsDelService (env : Env) (st : St) (svc : IpvsSvc) : Option String × St :=
  if env.failIpvsDelService svc then (some "ipvs del service error", st)
  else
    (none, { st with
      svcs := st.svcs.filter (fun s => s != svc),
      dests := st.dests.filter (fun p => p.1 != some svc) })

/-- Modelled from the spec: `ln.ipvsGetDestinations` lists the real servers
of a virtual service (method defined outside the given source file). -/
def ipvsGetDestinations (env : Env) (st : St) (svc : IpvsSvc) :
    Except String (List Destination) :=
  if env.failIpvsGetDestinations svc then .error "ipvs get destinations error"
  else .ok ((st.dests.filter (fun p => p.1 == some svc)).map (·.2))

/-- Modelled from the spec: `nsc.ipvsDeleteDestination` removes one real
server from a virtual service (method defined outside the given source
file). -/
def ipvsDeleteDestination (env : Env) (st : St) (svc : IpvsSvc) (dst : Destination) :
    Option String × St :=
  if env.failIpvsDeleteDestination svc dst then (some "ipvs delete destination error", st)
  else (none, { st with dests := st.dests.filter (fun p => p != (some svc, dst)) })

/-- Modelled from the spec: `lookupMark` — `nsc.lookupFWMarkByService`
returns the mark registered for (ip, proto, port), or 0 when absent
(method defined outside the given source file). -/
def lookupFWMarkByService (st : St) (ip proto port : String) : Nat :=
  match st.fwMarkMap.find? (fun p => p.2.1 == ip && p.2.2.1 == proto
      && toString p.2.2.2 == port) with
  | some p => p.1
  | none => 0

/-- Modelled from the spec: `lookupTuple(mark)` — `nsc.lookupServiceByFWMark`
recalls the (externalIP, protocol, port) tuple a mark encodes (method
defined outside the given source file). -/
def lookupServiceByFWMark (st : St) (fwMark : Nat) :
    Except String (String × String × Nat) :=
  match st.fwMarkMap.lookup fwMark with
  | some t => .ok t
  | none => .error "no service found for fwmark"

/-- Modelled from the spec: probing step of `allocateMark` — rehash
(`h' = h + 1`, wrap to non-zero) until a free slot is found. -/
def probeMark (m : List (Nat × (String × String × Nat))) :
    Nat → Nat → Option Nat
  | 0, _ => none
  | fuel + 1, h =>
    let cand := if h % 4294967296 == 0 then 1 else h % 4294967296
    match m.lookup cand with
    | none => some cand
    | some _ => probeMark m fuel (h + 1)

/-- Modelled from the spec: `allocateMark` — `nsc.generateUniqueFWMark`
returns the mark already owned by the tuple, or allocates a fresh
deterministic one (method defined outside the given source file). -/
def generateUniqueFWMark (env : Env) (st : St) (ip proto port : String) :
    Except String Nat × St :=
  match st.fwMarkMap.find? (fun p => p.2.1 == ip && p.2.2.1 == proto
      && toString p.2.2.2 == port) with
  | some p => (.ok p.1, st)
  | none =>
    match probeMark st.fwMarkMap 4294967296 (env.hashTuple ip proto port) with
    | some mark =>
      (.ok mark, { st with fwMarkMap :=
        st.fwMarkMap ++ [(mark, (ip, proto, port.toNat?.getD 0))] })
    | none => (.error "mark space exhausted", st)

/-- Rendering of an installed mangle rule in `iptables-save` form: the mark
appears in hexadecimal there even though it is installed in decimal. -/
def mangleRuleLine (ip proto port markHex : String) : String :=
  "-A PREROUTING -d " ++ ip ++ "/32 -p " ++ proto ++ " -m " ++ proto ++
    " --dport " ++ port ++ " -j MARK --set-xmark 0x" ++ markHex

/-- Modelled from the spec: `setupMangleTableRule` installs the mangle rule
marking ingress packets for (ip, proto, port) with the (decimal-rendered)
mark (helper defined outside the given source file). -/
def setupMangleTableRule (env : Env) (st : St) (ip proto port markDec : String)
    (_tcpMSS : Nat) : Option String × St :=
  if env.failSetupMangleTableRule then (some "mangle setup error", st)
  else
    let line := mangleRuleLine ip proto port (natToHex (markDec.toNat?.getD 0))
    (none, { st with mangle :=
      if st.mangle.contains line then st.mangle else st.mangle ++ [line] })

/-- Modelled from the spec: `ln.cleanupMangleTableRule` removes all sibling
mangle rules of the tuple atomically (method defined outside the given
source file); the call is traced because claim C7 concerns when it is
triggered. -/
def cleanupMangleTableRule (env : Env) (st : St) (ip proto port markDec : String)
    (_tcpMSS : Nat) : Option String × St :=
  let st := { st with trace := st.trace ++ [Call.cleanupMangleTableRule ip proto port markDec] }
  if env.failCleanupMangleTableRule then (some "mangle cleanup error", st)
  else (none, { st with mangle := st.mangle.filter (fun l => !(strContains l ip)) })

/-- Modelled from the spec: `utils.SaveInto("mangle", …)` snapshots the
mangle table (helper defined outside the given source file); the dump is
modelled directly as its list of lines. -/
def saveMangle (env : Env) (st : St) : Except String (List String) :=
  if env.failSaveMangle then .error "iptables-save error" else .ok st.mangle

/-- Modelled from the spec: `routeVIPTrafficToDirector` installs the
`ip rule` selecting the custom DSR table by mark (helper defined outside
the given source file; no modelled state). -/
def routeVIPTrafficToDirector (env : Env) (_markHex : String) : Option String :=
  if env.failRouteVIPTrafficToDirector then some "ip rule error" else none

/-- Modelled from the spec: `nsc.addDSRIPInsidePodNetNamespace` injects the
external IP inside the backend pod's network namespace (method defined
outside the given source file; no modelled state). -/
def addDSRIPInsidePodNetNamespace (env : Env) (_externalIP _podIP : String) :
    Option String :=
  if env.failAddDSRIPInsidePodNetNamespace then some "pod netns error" else none

/-- Modelled from the spec: `ln.setupPolicyRoutingForDSR` (method defined
outside the given source file; no modelled state). -/
def setupPolicyRoutingForDSR (env : Env) : Option String :=
  if env.failSetupPolicyRoutingForDSR then some "pbr error" else none

/-- Modelled from the spec: `ln.setupRoutesForExternalIPForDSR` (method
defined outside the given source file; no modelled state). -/
def setupRoutesForExternalIPForDSR (env : Env)
    (_serviceInfoMap : List (String × serviceInfo)) : Option String :=
  if env.failSetupRoutesForExternalIPForDSR then some "route table error" else none

/-- Modelled from the spec: `nsc.syncIpvsFirewall` ensures service-VIP
traffic is permitted (method defined outside the given source file; no
modelled state). -/
def syncIpvsFirewall (env : Env) : Option String :=
  if env.failSyncIpvsFirewall then some "firewall sync error" else none

/-- Does an excluded CIDR (embedded as its member set) contain the
possibly-nil IPVS service address?  `net.IPNet.Contains(nil)` is false. -/
def cidrContains (cidr : List String) : Option String → Bool
  | none => false
  | some ip => cidr.contains ip

/-- Endpoint loop of `setupClusterIPServices` (source lines 123-147): skip a
non-local endpoint when the service is local and has active local
endpoints; otherwise add the real server and, on success, append the
endpoint ID under the cluster service key. -/
def clusterIPEndpointLoop (env : Env) (svc : serviceInfo) (ipvsClusterVipSvc : IpvsSvc)
    (clusterServiceID : String) (endpoints : List endpointsInfo) :
    List endpointsInfo → ActiveMap → St → ActiveMap × St
  | [], am, st => (am, st)
  | endpoint :: rest, am, st =>
    if svc.local' && (hasActiveEndpoints endpoints && !endpoint.isLocal) then
      clusterIPEndpointLoop env svc ipvsClusterVipSvc clusterServiceID endpoints rest am st
    else
      let dst : Destination := ⟨endpoint.ip, endpoint.port, 1, false⟩
      match ipvsAddServer env st (some ipvsClusterVipSvc) dst with
      | (some _, st') =>
        clusterIPEndpointLoop env svc ipvsClusterVipSvc clusterServiceID endpoints rest am st'
      | (none, st') =>
        clusterIPEndpointLoop env svc ipvsClusterVipSvc clusterServiceID endpoints rest
          (amAppend am clusterServiceID
            (generateEndpointID endpoint.ip (toString endpoint.port))) st'

/-- Service loop of `setupClusterIPServices` (source lines 98-148): per
service, ensure the dummy interface (failure returns from the whole pass),
add the cluster IP to it (failure skips the service), ensure the IPVS
virtual service (failure skips the service), record the key with an empty
endpoint list, then run the endpoint loop. -/
def clusterIPLoop (env : Env) (endpointsInfoMap : List (String × List endpointsInfo)) :
    List (String × serviceInfo) → ActiveMap → St → Option String × ActiveMap × St
  | [], am, st => (none, am, st)
  | (k, svc) :: rest, am, st =>
    let endpoints := (endpointsInfoMap.lookup k).getD []
    match getKubeDummyInterface env with
    | some e => (some ("Failed creating dummy interface: " ++ e), am, st)
    | none =>
      match ipAddrAdd env st svc.clusterIP with
      | (some _, st') => clusterIPLoop env endpointsInfoMap rest am st'
      | (none, st') =>
        match ipvsAddService env st' svc.clusterIP
            (convertSvcProtoToSysCallProto svc.protocol) svc.port with
        | (.error _, st'') => clusterIPLoop env endpointsInfoMap rest am st''
        | (.ok ipvsClusterVipSvc, st'') =>
          let clusterServiceID :=
            generateIPPortID svc.clusterIP svc.protocol (toString svc.port)
          let am' := amSet am clusterServiceID []
          let r := clusterIPEndpointLoop env svc ipvsClusterVipSvc
            clusterServiceID endpoints endpoints am' st''
          clusterIPLoop env endpointsInfoMap rest r.1 r.2

/-- `setupClusterIPServices` (source lines 92-150). -/
def setupClusterIPServices (env : Env) (serviceInfoMap : List (String × serviceInfo))
    (endpointsInfoMap : List (String × List endpointsInfo)) (am : ActiveMap) (st : St) :
    Option String × ActiveMap × St :=
  match ipvsGetServices env st with
  | .error e => (some ("Failed get list of IPVS services due to: " ++ e), am, st)
  | .ok _ => clusterIPLoop env endpointsInfoMap serviceInfoMap am st

/-- Per-address loop of `setupNodePortServices` when binding on all local
IPs (source lines 194-204): a failing `ipvsAddService` leaves the slot's
service handle nil and its service ID at the zero value "". -/
def nodePortAddrLoop (env : Env) (svc : serviceInfo) (protocol : Nat) :
    List String → List (Option IpvsSvc × String) → ActiveMap → St →
      List (Option IpvsSvc × String) × ActiveMap × St
  | [], acc, am, st => (acc, am, st)
  | addr :: rest, acc, am, st =>
    match ipvsAddService env st addr protocol svc.nodePort with
    | (.error _, st') =>
      nodePortAddrLoop env svc protocol rest (acc ++ [(none, "")]) am st'
    | (.ok s, st') =>
      let id := generateIPPortID addr svc.protocol (toString svc.nodePort)
      nodePortAddrLoop env svc protocol rest (acc ++ [(some s, id)]) (amSet am id []) st'

/-- Inner slot loop of the node-port endpoint loop (source lines 226-237):
the local-policy test `!svc.local || (svc.local && endpoint.isLocal)`
guards the add; on success the endpoint ID is appended under the slot's
service ID. -/
def nodePortSlotLoop (env : Env) (svc : serviceInfo) (endpoint : endpointsInfo) :
    List (Option IpvsSvc × String) → ActiveMap → St → ActiveMap × St
  | [], am, st => (am, st)
  | (h, id) :: rest, am, st =>
    let dst : Destination := ⟨endpoint.ip, endpoint.port, 1, false⟩
    if !svc.local' || (svc.local' && endpoint.isLocal) then
      match ipvsAddServer env st h dst with
      | (some _, st') => nodePortSlotLoop env svc endpoint rest am st'
      | (none, st') =>
        nodePortSlotLoop env svc endpoint rest
          (amAppend am id (generateEndpointID endpoint.ip (toString endpoint.port))) st'
    else
      nodePortSlotLoop env svc endpoint rest am st

/-- Endpoint loop of `setupNodePortServices` (source lines 219-238). -/
def nodePortEndpointLoop (env : Env) (svc : serviceInfo)
    (slots : List (Option IpvsSvc × String)) :
    List endpointsInfo → ActiveMap → St → ActiveMap × St
  | [], am, st => (am, st)
  | endpoint :: rest, am, st =>
    let r := nodePortSlotLoop env svc endpoint slots am st
    nodePortEndpointLoop env svc slots rest r.1 r.2

/-- Service loop of `setupNodePortServices` (source lines 158-239): skip
non-NodePort services and local services without active endpoints; bind
either on every local address or on the node IP; then run the endpoint
loop over the created slots. -/
def nodePortSvcLoop (env : Env) (nsc : Nsc)
    (endpointsInfoMap : List (String × List endpointsInfo)) :
    List (String × serviceInfo) → ActiveMap → St → Option String × ActiveMap × St
  | [], am, st => (none, am, st)
  | (k, svc) :: rest, am, st =>
    let protocol := convertSvcProtoToSysCallProto svc.protocol
    if svc.nodePort == 0 then
      nodePortSvcLoop env nsc endpointsInfoMap rest am st
    else
      let endpoints := (endpointsInfoMap.lookup k).getD []
      if svc.local' && !hasActiveEndpoints endpoints then
        nodePortSvcLoop env nsc endpointsInfoMap rest am st
      else
        if nsc.nodeportBindOnAllIP then
          match env.getAllLocalIPs with
          | none => nodePortSvcLoop env nsc endpointsInfoMap rest am st
          | some addrs =>
            if addrs.length == 0 then
              nodePortSvcLoop env nsc endpointsInfoMap rest am st
            else
              let a := nodePortAddrLoop env svc protocol addrs [] am st
              let r := nodePortEndpointLoop env svc a.1 endpoints a.2.1 a.2.2
              nodePortSvcLoop env nsc endpointsInfoMap rest r.1 r.2
        else
          match ipvsAddService env st nsc.nodeIP protocol svc.nodePort with
          | (.error _, st') => nodePortSvcLoop env nsc endpointsInfoMap rest am st'
          | (.ok s, st') =>
            let id := generateIPPortID nsc.nodeIP svc.protocol (toString svc.nodePort)
            let am' := amSet am id []
            let r := nodePortEndpointLoop env svc [(some s, id)] endpoints am' st'
            nodePortSvcLoop env nsc endpointsInfoMap rest r.1 r.2

/-- `setupNodePortServices` (source lines 152-241). -/
def setupNodePortServices (env : Env) (nsc : Nsc)
    (serviceInfoMap : List (String × serviceInfo))
    (endpointsInfoMap : List (String × List endpointsInfo)) (am : ActiveMap) (st : St) :
    Option String × ActiveMap × St :=
  match ipvsGetServices env st with
  | .error e => (some ("Failed get list of IPVS services due to: " ++ e), am, st)
  | .ok _ => nodePortSvcLoop env nsc endpointsInfoMap serviceInfoMap am st

/-- Sorted-unique insertion used to embed `k8s sets.String.List()`. -/
def insertStrSorted (x : String) : List String → List String
  | [] => [x]
  | y :: ys =>
    if x == y then y :: ys
    else if x < y then x :: y :: ys
    else y :: insertStrSorted x ys

/-- `sets.NewString(…).Union(…).List()`: deduplicated, sorted union. -/
def sortedUnion (l : List String) : List String :=
  l.foldl (fun acc x => insertStrSorted x acc) []

/-- Mangle-table scan of `cleanupDSRService` (source lines 631-647): at the
first saved line containing both the external IP and the hex mark, run the
atomic rule cleanup; on its success stop scanning, on its failure keep
scanning. -/
def dsrMangleScan (env : Env) (nsc : Nsc) (ipAddress proto : String) (port fwMark : Nat) :
    List String → St → St
  | [], st => st
  | line :: rest, st =>
    if strContains line ipAddress && strContains line (natToHex fwMark) then
      match cleanupMangleTableRule env st ipAddress proto (toString port)
          (toString fwMark) nsc.dsrTCPMSS with
      | (some _, st') => dsrMangleScan env nsc ipAddress proto port fwMark rest st'
      | (none, st') => st'
    else
      dsrMangleScan env nsc ipAddress proto port fwMark rest st

/-- `cleanupDSRService` (source lines 610-652): look up the tuple for the
mark (failure returns with no state change), snapshot the mangle table
(failure is logged and scanning sees no lines), scan for a rule mentioning
the external IP and the hex mark, and finally drop the mark's registry
binding unconditionally. -/
def cleanupDSRService (env : Env) (nsc : Nsc) (fwMark : Nat) (st : St) :
    Option String × St :=
  match lookupServiceByFWMark st fwMark with
  | .error e => (some ("no service was found for FW mark: " ++ e), st)
  | .ok (ipAddress, proto, port) =>
    let mangleTableRules :=
      match saveMangle env st with
      | .error _ => []
      | .ok dump => dump
    let st' := dsrMangleScan env nsc ipAddress proto port fwMark mangleTableRules st
    (none, { st' with fwMarkMap := st'.fwMarkMap.filter (fun p => p.1 != fwMark) })

/-- Endpoint loop of `setupExternalIPForService` (source lines 345-363):
add every endpoint passing the local test; an add failure RETURNS an error
rather than continuing. -/
def extIPEndpointLoop (env : Env) (svc : serviceInfo) (externalIP : String)
    (ipvsExternalIPSvc : IpvsSvc) :
    List endpointsInfo → St → Option String × St
  | [], st => (none, st)
  | endpoint :: rest, st =>
    if svc.local' && !endpoint.isLocal then
      extIPEndpointLoop env svc externalIP ipvsExternalIPSvc rest st
    else
      let dst : Destination := ⟨endpoint.ip, endpoint.port, 1, false⟩
      match ipvsAddServer env st (some ipvsExternalIPSvc) dst with
      | (some e, st') =>
        (some ("unable to add destination " ++ endpoint.ip ++ " to externalIP service "
          ++ externalIP ++ ": " ++ e), st')
      | (none, st') => extIPEndpointLoop env svc externalIP ipvsExternalIPSvc rest st'

/-- Remainder of `setupExternalIPForService` after the dummy-interface
address step (source lines 323-365): ensure the IPVS virtual service, tear
down any leftover DSR mark for the tuple, then run the endpoint loop. -/
def setupExternalIPForServiceRest (env : Env) (nsc : Nsc) (svc : serviceInfo)
    (externalIP : String) (endpoints : List endpointsInfo) (st : St) :
    Option String × St :=
  match ipvsAddService env st externalIP
      (convertSvcProtoToSysCallProto svc.protocol) svc.port with
  | (.error e, st') =>
    (some ("failed to create ipvs service for external ip: " ++ externalIP
      ++ " due to " ++ e), st')
  | (.ok ipvsExternalIPSvc, st') =>
    let fwMark := lookupFWMarkByService st' externalIP svc.protocol (toString svc.port)
    if fwMark == 0 then
      extIPEndpointLoop env svc externalIP ipvsExternalIPSvc endpoints st'
    else
      match cleanupDSRService env nsc fwMark st' with
      | (some e, st'') => (some ("failed to cleanup DSR service: " ++ e), st'')
      | (none, st'') => extIPEndpointLoop env svc externalIP ipvsExternalIPSvc endpoints st''

/-- `setupExternalIPForService` (source lines 303-366). -/
def setupExternalIPForService (env : Env) (nsc : Nsc) (svc : serviceInfo)
    (externalIP : String) (endpoints : List endpointsInfo) (st : St) :
    Option String × St :=
  match getKubeDummyInterface env with
  | some e => (some ("failed creating dummy interface: " ++ e), st)
  | none =>
    match ipvsGetServices env st with
    | .error e => (some ("failed get list of IPVS services due to: " ++ e), st)
    | .ok _ =>
      let r := ipAddrAdd env st externalIP
      match r.1 with
      | some e =>
        if e != IfaceHasAddr then
          (some ("failed to assign external ip " ++ externalIP ++ ": " ++ e), r.2)
        else
          setupExternalIPForServiceRest env nsc svc externalIP endpoints r.2
      | none => setupExternalIPForServiceRest env nsc svc externalIP endpoints r.2

/-- Endpoint loop of `setupExternalIPForDSRService` (source lines 423-448):
tunnel-mode destinations, plus VIP injection inside the pod namespace; any
failure returns an error. -/
def dsrEndpointLoop (env : Env) (svc : serviceInfo) (externalIP : String)
    (ipvsExternalIPSvc : IpvsSvc) :
    List endpointsInfo → St → Option String × St
  | [], st => (none, st)
  | endpoint :: rest, st =>
    if svc.local' && !endpoint.isLocal then
      dsrEndpointLoop env svc externalIP ipvsExternalIPSvc rest st
    else
      let dst : Destination := ⟨endpoint.ip, endpoint.port, 1, true⟩
      match ipvsAddServer env st (some ipvsExternalIPSvc) dst with
      | (some e, st') =>
        (some ("unable to add destination " ++ endpoint.ip ++ " to externalIP service "
          ++ externalIP ++ ": " ++ e), st')
      | (none, st') =>
        match addDSRIPInsidePodNetNamespace env externalIP endpoint.ip with
        | some e => (some ("unable to setup DSR receiver inside pod: " ++ e), st')
        | none => dsrEndpointLoop env svc externalIP ipvsExternalIPSvc rest st'

/-- Remainder of `setupExternalIPForDSRService` after the address removal
(source lines 415-450): install the policy route, then the endpoint loop. -/
def setupExternalIPForDSRServiceRest (env : Env) (svc : serviceInfo)
    (externalIP : String) (ipvsExternalIPSvc : IpvsSvc) (fwMark : Nat)
    (endpoints : List endpointsInfo) (st : St) : Option String × St :=
  match routeVIPTrafficToDirector env ("0x" ++ natToHex fwMark) with
  | some e =>
    (some ("failed to setup ip rule to lookup traffic to external IP: " ++ externalIP
      ++ " through custom route table due to " ++ e), st)
  | none => dsrEndpointLoop env svc externalIP ipvsExternalIPSvc endpoints st

/-- `setupExternalIPForDSRService` (source lines 376-451): allocate the FW
mark, ensure the mark-keyed IPVS service, install the mangle rule, ensure
the external IP is absent from the dummy interface (tolerating
`IfaceHasNoAddr`), install the policy route, then the endpoint loop. -/
def setupExternalIPForDSRService (env : Env) (nsc : Nsc) (svc : serviceInfo)
    (externalIP : String) (endpoints : List endpointsInfo) (st : St) :
    Option String × St :=
  match getKubeDummyInterface env with
  | some e => (some ("Failed creating dummy interface: " ++ e), st)
  | none =>
    match ipvsGetServices env st with
    | .error e => (some ("Failed get list of IPVS services due to: " ++ e), st)
    | .ok _ =>
      match generateUniqueFWMark env st externalIP svc.protocol (toString svc.port) with
      | (.error _, st₁) => (some "failed to generate FW mark", st₁)
      | (.ok fwMark, st₁) =>
        match ipvsAddFWMarkService env st₁ fwMark with
        | (.error e, st₂) =>
          (some ("failed to create IPVS service for External IP: " ++ externalIP
            ++ " due to: " ++ e), st₂)
        | (.ok ipvsExternalIPSvc, st₂) =>
          let externalIPServiceID := toString fwMark
          match setupMangleTableRule env st₂ externalIP svc.protocol (toString svc.port)
              externalIPServiceID nsc.dsrTCPMSS with
          | (some _, st₃) =>
            (some "failed to setup mangle table rule to forward the traffic to external IP",
              st₃)
          | (none, st₃) =>
            let r := ipAddrDel env st₃ externalIP
            match r.1 with
            | some e =>
              if e != IfaceHasNoAddr then
                (some ("failed to delete external ip address from dummyVipInterface due to "
                  ++ e), r.2)
              else
                setupExternalIPForDSRServiceRest env svc externalIP ipvsExternalIPSvc
                  fwMark endpoints r.2
            | none =>
              setupExternalIPForDSRServiceRest env svc externalIP ipvsExternalIPSvc
                fwMark endpoints r.2

/-- Pure key-append loop of `setupExternalIPServices` (source lines
287-293): record under the external service ID each endpoint passing
`!svc.local || (svc.local && endpoint.isLocal)`. -/
def extIPRecordLoop (svc : serviceInfo) (externalIPServiceID : String) :
    List endpointsInfo → ActiveMap → ActiveMap
  | [], am => am
  | endpoint :: rest, am =>
    if !svc.local' || (svc.local' && endpoint.isLocal) then
      extIPRecordLoop svc externalIPServiceID rest
        (amAppend am externalIPServiceID
          (generateEndpointID endpoint.ip (toString endpoint.port)))
    else
      extIPRecordLoop svc externalIPServiceID rest am

/-- External-IP loop of `setupExternalIPServices` (source lines 263-294):
per external IP, a failure of the per-service setup RETURNS from the whole
pass; on success the service ID (FW mark for DSR, ip-proto-port otherwise)
is recorded with the passing endpoints. -/
def extIPLoop (env : Env) (nsc : Nsc) (svc : serviceInfo)
    (endpoints : List endpointsInfo) :
    List String → ActiveMap → St → Option String × ActiveMap × St
  | [], am, st => (none, am, st)
  | externalIP :: rest, am, st =>
    if svc.directServerReturn && svc.directServerReturnMethod == tunnelInterfaceType then
      match setupExternalIPForDSRService env nsc svc externalIP endpoints st with
      | (some e, st') =>
        (some ("failed to setup DSR endpoint " ++ externalIP ++ ": " ++ e), am, st')
      | (none, st') =>
        let fwMark := lookupFWMarkByService st' externalIP svc.protocol (toString svc.port)
        let externalIPServiceID := toString fwMark
        let am' := extIPRecordLoop svc externalIPServiceID endpoints
          (amSet am externalIPServiceID [])
        extIPLoop env nsc svc endpoints rest am' st'
    else
      match setupExternalIPForService env nsc svc externalIP endpoints st with
      | (some e, st') =>
        (some ("failed to setup service endpoint " ++ externalIP ++ ": " ++ e), am, st')
      | (none, st') =>
        let externalIPServiceID :=
          generateIPPortID externalIP svc.protocol (toString svc.port)
        let am' := extIPRecordLoop svc externalIPServiceID endpoints
          (amSet am externalIPServiceID [])
        extIPLoop env nsc svc endpoints rest am' st'

/-- Service loop of `setupExternalIPServices` (source lines 245-295). -/
def extSvcLoop (env : Env) (nsc : Nsc)
    (endpointsInfoMap : List (String × List endpointsInfo)) :
    List (String × serviceInfo) → ActiveMap → St → Option String × ActiveMap × St
  | [], am, st => (none, am, st)
  | (k, svc) :: rest, am, st =>
    let endpoints := (endpointsInfoMap.lookup k).getD []
    let extIPSet := sortedUnion (svc.externalIPs ++
      (if !svc.skipLbIps then svc.loadBalancerIPs else []))
    if extIPSet.length == 0 then
      extSvcLoop env nsc endpointsInfoMap rest am st
    else if svc.local' && !hasActiveEndpoints endpoints then
      extSvcLoop env nsc endpointsInfoMap rest am st
    else
      match extIPLoop env nsc svc endpoints extIPSet am st with
      | (some e, am', st') => (some e, am', st')
      | (none, am', st') => extSvcLoop env nsc endpointsInfoMap rest am' st'

/-- `setupExternalIPServices` (source lines 243-298). -/
def setupExternalIPServices (env : Env) (nsc : Nsc)
    (serviceInfoMap : List (String × serviceInfo))
    (endpointsInfoMap : List (String × List endpointsInfo)) (am : ActiveMap) (st : St) :
    Option String × ActiveMap × St :=
  extSvcLoop env nsc endpointsInfoMap serviceInfoMap am st

/-- Active-IP set of `cleanupStaleVIPs` (source lines 480-488): the first
dash-separated field of every key that contains a dash. -/
def buildAddrActive (am : ActiveMap) : List String :=
  am.foldl (fun acc kv =>
    if strContains kv.1 "-" then
      let p := firstDashField kv.1
      if acc.contains p then acc else acc ++ [p]
    else acc) []

/-- Address loop of `cleanupStaleVIPs` (source lines 499-510): delete every
snapshot address that is not active; a delete failure is logged and the
loop continues. -/
def staleVIPAddrLoop (env : Env) (addrActive : List String) :
    List String → St → St
  | [], st => st
  | addr :: rest, st =>
    if addrActive.contains addr then
      staleVIPAddrLoop env addrActive rest st
    else
      match ipAddrDel env st addr with
      | (some _, st') => staleVIPAddrLoop env addrActive rest st'
      | (none, st') => staleVIPAddrLoop env addrActive rest st'

/-- `cleanupStaleVIPs` (source lines 475-512). -/
def cleanupStaleVIPs (env : Env) (am : ActiveMap) (st : St) : Option String × St :=
  let addrActive := buildAddrActive am
  match getKubeDummyInterface env with
  | some e => (some ("Failed creating dummy interface: " ++ e), st)
  | none =>
    match addrList env st with
    | .error e => (some ("Failed to list dummy interface IPs: " ++ e), st)
    | .ok addrs => (none, staleVIPAddrLoop env addrActive addrs st)

/-- Garbage-collection key of a listed IPVS entry (source lines 527-544):
skip entries whose protocol has no textual mapping and which carry no
mark; otherwise the Go `switch` tests `Address != nil` BEFORE
`FWMark != 0`, so an addressed entry is keyed by ip-proto-port even when
it also carries a mark; `none` renders `continue`. -/
def staleKeyOf (ipvsSvc : IpvsSvc) : Option String :=
  let protocol := convertSysCallProtoToSvcProto ipvsSvc.Protocol
  if protocol == noneProtocol && ipvsSvc.FWMark == 0 then none
  else
    match ipvsSvc.Address with
    | some a => some (generateIPPortID a protocol (toString ipvsSvc.Port))
    | none => if ipvsSvc.FWMark != 0 then some (toString ipvsSvc.FWMark) else none

/-- The `validEp` test of `cleanupStaleIPVSConfig` (source lines 586-592):
is the destination's endpoint ID among the key's active endpoint IDs? -/
def epValid (endpointIDs : List String) (dst : Destination) : Bool :=
  endpointIDs.contains (generateEndpointID dst.Address (toString dst.Port))

/-- Destination pruning of `cleanupStaleIPVSConfig` for a key that is
present (source lines 585-602): delete every listed destination whose
endpoint ID is not active. -/
def staleDestLoop (env : Env) (ipvsSvc : IpvsSvc) (endpointIDs : List String) :
    List Destination → St → St
  | [], st => st
  | dst :: rest, st =>
    if epValid endpointIDs dst then
      staleDestLoop env ipvsSvc endpointIDs rest st
    else
      match ipvsDeleteDestination env st ipvsSvc dst with
      | (some _, st') => staleDestLoop env ipvsSvc endpointIDs rest st'
      | (none, st') => staleDestLoop env ipvsSvc endpointIDs rest st'

/-- Service loop of `cleanupStaleIPVSConfig` (source lines 524-604): a key
absent from the active map means deletion (unless the address lies in an
excluded CIDR; a marked entry gets best-effort DSR teardown first); a key
present means pruning stale destinations only. -/
def staleSvcLoop (env : Env) (nsc : Nsc) (am : ActiveMap) :
    List IpvsSvc → St → St
  | [], st => st
  | ipvsSvc :: rest, st =>
    match staleKeyOf ipvsSvc with
    | none => staleSvcLoop env nsc am rest st
    | some key =>
      match am.lookup key with
      | none =>
        let excluded := nsc.excludedCidrs.any (fun cidr => cidrContains cidr ipvsSvc.Address)
        if excluded then
          staleSvcLoop env nsc am rest st
        else
          let st₁ :=
            if ipvsSvc.FWMark != 0 then
              match lookupServiceByFWMark st ipvsSvc.FWMark with
              | .error _ => st
              | .ok _ => (cleanupDSRService env nsc ipvsSvc.FWMark st).2
            else st
          match ipvsDelService env st₁ ipvsSvc with
          | (some _, st₂) => staleSvcLoop env nsc am rest st₂
          | (none, st₂) => staleSvcLoop env nsc am rest st₂
      | some endpointIDs =>
        let dsts :=
          match ipvsGetDestinations env st ipvsSvc with
          | .error _ => []
          | .ok d => d
        let st₂ := staleDestLoop env ipvsSvc endpointIDs dsts st
        staleSvcLoop env nsc am rest st₂

/-- `cleanupStaleIPVSConfig` (source lines 514-606). -/
def cleanupStaleIPVSConfig (env : Env) (nsc : Nsc) (am : ActiveMap) (st : St) :
    Option String × St :=
  match ipvsGetServices env st with
  | .error e => (some ("failed get list of IPVS services due to: " ++ e), st)
  | .ok ipvsSvcs => (none, staleSvcLoop env nsc am ipvsSvcs st)

/-- `cleanupStaleMetrics` (source lines 654-673): drop (and un-register)
every metrics-map entry whose key is not active. -/
def cleanupStaleMetrics (am : ActiveMap) (st : St) : St :=
  { st with metricsMap := st.metricsMap.filter (fun kv => (am.lookup kv.1).isSome) }

/-- `setupForDSR` (source lines 453-473). -/
def setupForDSR (env : Env) (serviceInfoMap : List (String × serviceInfo)) :
    Option String :=
  match setupPolicyRoutingForDSR env with
  | some e => some ("Failed setup PBR for DSR due to: " ++ e)
  | none =>
    match setupRoutesForExternalIPForDSR env serviceInfoMap with
    | some e =>
      some ("failed setup custom routing table required to add routes for external IPs due to: "
        ++ e)
    | none => none

/-- `syncIpvsServices` (source lines 23-90): run the eight steps in fixed
order, recording `syncErrors` when any step fails, and return nil
regardless. -/
def syncIpvsServices (env : Env) (nsc : Nsc)
    (serviceInfoMap : List (String × serviceInfo))
    (endpointsInfoMap : List (String × List endpointsInfo)) (st : St) :
    Option String × St × Bool :=
  let activeServiceEndpointMap : ActiveMap := []
  let r₁ :=
    setupClusterIPServices env serviceInfoMap endpointsInfoMap activeServiceEndpointMap st
  let r₂ := setupNodePortServices env nsc serviceInfoMap endpointsInfoMap r₁.2.1 r₁.2.2
  let r₃ := setupExternalIPServices env nsc serviceInfoMap endpointsInfoMap r₂.2.1 r₂.2.2
  let r₄ := cleanupStaleVIPs env r₃.2.1 r₃.2.2
  let r₅ := cleanupStaleIPVSConfig env nsc r₃.2.1 r₄.2
  let st₆ := cleanupStaleMetrics r₃.2.1 r₅.2
  let err₇ := syncIpvsFirewall env
  let err₈ := setupForDSR env serviceInfoMap
  let syncErrors := r₁.1.isSome || r₂.1.isSome || r₃.1.isSome || r₄.1.isSome
    || r₅.1.isSome || err₇.isSome || err₈.isSome
  (none, st₆, syncErrors)

/-- Spec-side local-policy predicate, written from the specification's
words (invariant 3): an endpoint is installed iff
`!svc.local || endpoint.isLocal || (svc.local && no local endpoint exists)`.
Claim C4 compares the code's per-pass loops against this predicate. -/
def localPolicyPred (svc : serviceInfo) (endpoints : List endpointsInfo)
    (endpoint : endpointsInfo) : Bool :=
  !svc.local' || endpoint.isLocal || (svc.local' && !hasActiveEndpoints endpoints)

/-- Real servers currently attached to a virtual-service handle. -/
def destsOf (st : St) (svc : IpvsSvc) : List Destination :=
  (st.dests.filter (fun p => p.1 == some svc)).map (·.2)

/-- A remaining IPVS entry is accounted for after the stale sweep: skipped
by the protocol guard, keyed in the active map, or lying in an excluded
CIDR. -/
def svcKeptOK (am : ActiveMap) (nsc : Nsc) (svc : IpvsSvc) : Bool :=
  match staleKeyOf svc with
  | none => true
  | some key =>
    (am.lookup key).isSome
      || nsc.excludedCidrs.any (fun cidr => cidrContains cidr svc.Address)

/-- Empty initial state. -/
def st0 : St := ⟨[], [], [], [], [], [], []⟩

/-- Controller configuration with no excluded CIDRs, not binding node
ports on all addresses. -/
def nsc0 : Nsc := ⟨"192.168.1.1", false, [], 0⟩

/-- A plain tcp/80 cluster service used to build concrete scenarios. -/
def svcBase : serviceInfo :=
  ⟨"default", "web", "tcp", "10.0.0.1", 80, 0, [], [], false, false, false, 0, "rr", 0,
    false, ""⟩

/-- Concrete service with external IP 1.2.3.4 (first in the C1 scenario). -/
def svcExtA : serviceInfo := { svcBase with externalIPs := ["1.2.3.4"] }

/-- Concrete service with external IP 5.6.7.8 (second in the C1 scenario). -/
def svcExtB : serviceInfo := { svcBase with externalIPs := ["5.6.7.8"] }

/-- Environment for the C1 scenario: creating the IPVS virtual service for
1.2.3.4 fails; everything else succeeds. -/
def envC1 : Env :=
  { envOK with failIpvsAddService := fun vip _ _ => vip == "1.2.3.4" }

/-- Concrete IPVS entry carrying BOTH a non-nil address and a non-zero
firewall mark (the C2 scenario). -/
def svcC2 : IpvsSvc := ⟨some "10.0.0.1", 6, 80, 5⟩

/-- State whose IPVS table holds only `svcC2`. -/
def stC2 : St := { st0 with svcs := [svcC2] }

/-- A stale SCTP (protocol 132) IPVS entry with no mark (C3 scenario). -/
def sctpSvc : IpvsSvc := ⟨some "10.9.9.9", 132, 80, 0⟩

/-- State with a stale SCTP IPVS entry and a stale mangle rule for mark 12,
neither of which any sweep removes (C3 scenario). -/
def stC3 : St := { st0 with
  svcs := [sctpSvc],
  mangle := [mangleRuleLine "203.0.113.9" "tcp" "443" (natToHex 12)] }

/-- Environment for the C9 scenario: two local addresses are reported and
creating the IPVS node-port service fails exactly for the first. -/
def envC9 : Env := { envOK with
  getAllLocalIPs := some ["10.0.0.5", "192.168.1.10"],
  failIpvsAddService := fun vip _ _ => vip == "10.0.0.5" }

/-- NodePort 30080 service for the C9 scenario. -/
def svcC9 : serviceInfo := { svcBase with nodePort := 30080 }

/-- Remote endpoint for the C9 scenario. -/
def epC9 : endpointsInfo := ⟨"10.1.0.2", 8080, false⟩

/-- Node-port configuration binding on all local addresses (C9 scenario). -/
def nscC9 : Nsc := ⟨"192.168.1.1", true, [], 0⟩

/-- State with mark 300 registered for (203.0.113.9, tcp, 443) and a saved
mangle table whose second line mentions both the IP and the hex mark. -/
def stDSR : St := { st0 with
  fwMarkMap := [(300, ("203.0.113.9", "tcp", 443))],
  mangle := ["-A PREROUTING -d 9.9.9.9/32 -j MARK --set-xmark 0x5",
    mangleRuleLine "203.0.113.9" "tcp" "443" (natToHex 300),
    "-A PREROUTING -d 203.0.113.9/32 extra sibling 12c"] }

/-- Environment in which dumping the mangle table fails (C10 witness). -/
def envSaveFail : Env := { envOK with failSaveMangle := true }

/-- Environment for the C6 scenario: adding 10.0.0.1 to the dummy
interface fails with an error other than already-present; all else
succeeds. -/
def envC6 : Env :=
  { envOK with ipAddrAddErr := fun ip => if ip == "10.0.0.1" then some "boom" else none }

/-- Second service of the C6 scenario, cluster IP 10.0.0.2. -/
def svcC6b : serviceInfo := { svcBase with clusterIP := "10.0.0.2" }

/-- The state produced by the delete branch of the stale-IPVS sweep under
the all-success environment: best-effort DSR teardown for marked entries,
then removal of the virtual service and its destinations. -/
def staleDeleteState (nsc : Nsc) (st : St) (y : IpvsSvc) : St :=
  let st1 :=
    if (y.FWMark != 0) = true then
      match lookupServiceByFWMark st y.FWMark with
      | .error _ => st
      | .ok _ => (cleanupDSRService envOK nsc y.FWMark st).2
    else st
  { st1 with
    svcs := st1.svcs.filter (fun a => a != y),
    dests := st1.dests.filter (fun p => p.1 != some y) }

/-- The state reached after the first three steps of `syncIpvsServices`
(source lines 40-59) under the all-success environment, starting from the
empty machine state and an empty active map: the cluster-IP pass, the
node-port pass and the external-IP pass, with the active map and machine
state threaded between them exactly as in the source. -/
def threePassState (nsc : Nsc) (serviceInfoMap : List (String × serviceInfo))
    (endpointsInfoMap : List (String × List endpointsInfo)) : St :=
  let r₁ := setupClusterIPServices envOK serviceInfoMap endpointsInfoMap [] st0
  let r₂ := setupNodePortServices envOK nsc serviceInfoMap endpointsInfoMap r₁.2.1 r₁.2.2
  let r₃ := setupExternalIPServices envOK nsc serviceInfoMap endpointsInfoMap r₂.2.1 r₂.2.2
  r₃.2.2

/-- Concrete service for the C4 witness: cluster IP 10.0.0.1, node port
30080, one external IP, Cluster traffic policy. -/
def svcC4 : serviceInfo :=
  { svcBase with nodePort := 30080, externalIPs := ["11.22.33.44"] }

/-- Concrete endpoint list for the C4 witness: one remote and one local
endpoint with distinct (ip, port) keys. -/
def epsC4 : List endpointsInfo := [⟨"10.1.0.2", 8080, false⟩, ⟨"10.1.0.3", 8090, true⟩]

/-- C4 witness service with the Local traffic policy set. -/
def svcC4L : serviceInfo := { svcC4 with local' := true }

/-- C4 witness endpoint list with no local endpoint: together with
`svcC4L` this exercises the predicate disjunct
`svc.local && no local endpoint exists`. -/
def epsC4R : List endpointsInfo := [⟨"10.1.0.2", 8080, false⟩, ⟨"10.1.0.3", 8090, false⟩]

theorem lookup_amSet_self : ∀ (m : ActiveMap) (k : String) (v : List String),
    (amSet m k v).lookup k = some v
  | [], k, v => by simp [amSet, List.lookup]
  | (k', v') :: rest, k, v => by
    by_cases h : k' = k
    · subst h; simp [amSet, List.lookup]
    · have hb : (k' == k) = false := by simp [h]
      have hb' : (k == k') = false := by simp [Ne.symm h]
      simp [amSet, hb, List.lookup, hb', lookup_amSet_self rest k v]

theorem lookup_amSet_ne : ∀ (m : ActiveMap) (k k'' : String) (v : List String),
    k'' ≠ k → (amSet m k v).lookup k'' = m.lookup k''
  | [], k, k'', v, h => by
    have hb : (k'' == k) = false := by simp [h]
    simp [amSet, List.lookup, hb]
  | (k', v') :: rest, k, k'', v, h => by
    by_cases hk : k' = k
    · subst hk
      have hb : (k' == k') = true := by simp
      have hb' : (k'' == k') = false := by simp [h]
      simp [amSet, List.lookup, hb, hb']
    · have hb : (k' == k) = false := by simp [hk]
      by_cases hq : k'' = k'
      · subst hq; simp [amSet, hb, List.lookup]
      · have hq' : (k'' == k') = false := by simp [hq]
        simp [amSet, hb, List.lookup, hq', lookup_amSet_ne rest k k'' v h]

theorem amGet_amSet_self (m : ActiveMap) (k : String) (v : List String) :
    amGet (amSet m k v) k = v := by
  simp [amGet, lookup_amSet_self]

theorem amGet_amAppend_self (m : ActiveMap) (k x : String) :
    amGet (amAppend m k x) k = amGet m k ++ [x] := by
  simp [amAppend, amGet_amSet_self]

theorem lookup_amAppend_ne (m : ActiveMap) (k k'' x : String) (h : k'' ≠ k) :
    (amAppend m k x).lookup k'' = m.lookup k'' := by
  simp [amAppend, lookup_amSet_ne m k k'' _ h]

/-- C9: with node ports bound on all local addresses and `ipvsAddService`
failing for the first address, the endpoint loop still iterates the failed
slot: `ipvsAddServer` is invoked with a nil service handle, and the
endpoint ID is recorded in the active map under the empty-string key,
which contains no dash and is hence treated as a mark-style key by the
cleanup sweeps. -/
theorem C9_nil_slot_records_under_empty_key :
    (Call.ipvsAddServer none ⟨"10.1.0.2", 8080, 1, false⟩) ∈
        (setupNodePortServices envC9 nscC9 [("k", svcC9)] [("k", [epC9])] [] st0).2.2.trace
    ∧ (setupNodePortServices envC9 nscC9 [("k", svcC9)] [("k", [epC9])] [] st0).2.1.lookup ""
        = some ["10.1.0.2:8080"]
    ∧ strContains "" "-" = false := by
  refine ⟨?_, by decide, by decide⟩
  decide

/-- C1 counterexample: in the external-IP pass, a per-service failure (the
IPVS service for 1.2.3.4 cannot be created) makes the whole step return an
error before the second desired service is attempted — its key is absent
from the active map even though that same service is set up successfully
when it is reached (third conjunct). -/
theorem C1_counterexample_external_pass_returns_early :
    (setupExternalIPServices envC1 nsc0 [("a", svcExtA), ("b", svcExtB)] [] [] st0).1.isSome
      = true
    ∧ (setupExternalIPServices envC1 nsc0
        [("a", svcExtA), ("b", svcExtB)] [] [] st0).2.1.lookup "5.6.7.8-tcp-80" = none
    ∧ (setupExternalIPServices envC1 nsc0 [("b", svcExtB)] [] [] st0).2.1.lookup
        "5.6.7.8-tcp-80" = some [] := by
  exact ⟨by decide, by decide, by decide⟩

/-- C2 counterexample: an installed IPVS entry with BOTH a non-nil address
and a non-zero firewall mark is keyed by `"<ip>-<proto>-<port>"`, not by
its decimal mark; consequently the sweep deletes it even when the decimal
mark "5" is present in the active map. -/
theorem C2_counterexample_address_takes_priority_over_mark :
    staleKeyOf svcC2 = some "10.0.0.1-tcp-80"
    ∧ staleKeyOf svcC2 ≠ some (toString svcC2.FWMark)
    ∧ (cleanupStaleIPVSConfig envOK nsc0 [("5", [])] stC2).2.svcs = [] := by
  exact ⟨by decide, by decide, by decide⟩

/-- C3 counterexample: after both sweeps run to completion with an empty
active map and no excluded CIDRs, a mangle rule for an unregistered mark
and an SCTP IPVS virtual service both survive, although their keys are
outside `activeSet ∪ excludedCIDRs`. -/
theorem C3_counterexample_mangle_and_sctp_survive :
    (cleanupStaleIPVSConfig envOK nsc0 [] (cleanupStaleVIPs envOK [] stC3).2).2.svcs
      = [sctpSvc]
    ∧ (cleanupStaleIPVSConfig envOK nsc0 [] (cleanupStaleVIPs envOK [] stC3).2).2.mangle
      = [mangleRuleLine "203.0.113.9" "tcp" "443" (natToHex 12)]
    ∧ nsc0.excludedCidrs = [] := by
  exact ⟨by decide, by decide, by decide⟩

/-- C8: `syncIpvsServices` returns nil for EVERY input and fault pattern —
even when one or more steps fail — and its result is exactly the
sequential composition of the eight steps in the fixed order cluster-IP,
node-port, external-IP, stale-VIP sweep, stale-IPVS sweep, stale-metrics
sweep, firewall sync, DSR setup, with the error flag aggregating the step
failures and no step skipped because an earlier one failed. -/
theorem C8_sync_returns_nil_attempts_all_steps (env : Env) (nsc : Nsc)
    (sm : List (String × serviceInfo)) (em : List (String × List endpointsInfo))
    (st : St) :
    (syncIpvsServices env nsc sm em st).1 = none
    ∧ syncIpvsServices env nsc sm em st =
      (let r₁ := setupClusterIPServices env sm em [] st
       let r₂ := setupNodePortServices env nsc sm em r₁.2.1 r₁.2.2
       let r₃ := setupExternalIPServices env nsc sm em r₂.2.1 r₂.2.2
       let r₄ := cleanupStaleVIPs env r₃.2.1 r₃.2.2
       let r₅ := cleanupStaleIPVSConfig env nsc r₃.2.1 r₄.2
       (none, cleanupStaleMetrics r₃.2.1 r₅.2,
        r₁.1.isSome || r₂.1.isSome || r₃.1.isSome || r₄.1.isSome || r₅.1.isSome
          || (syncIpvsFirewall env).isSome || (setupForDSR env sm).isSome)) := by
  exact ⟨rfl, rfl⟩

/-- C2 (amended): the sweep keys an addressed entry by ip-proto-port even
when it also carries a non-zero mark (the address case is tested first);
the decimal mark is the key only when the listed address is nil. -/
theorem C2_amended_key_priority :
    (∀ (svc : IpvsSvc) (a : String), svc.Address = some a →
      ¬(convertSysCallProtoToSvcProto svc.Protocol = noneProtocol ∧ svc.FWMark = 0) →
      staleKeyOf svc
        = some (generateIPPortID a (convertSysCallProtoToSvcProto svc.Protocol)
            (toString svc.Port)))
    ∧ (∀ svc : IpvsSvc, svc.Address = none → svc.FWMark ≠ 0 →
      staleKeyOf svc = some (toString svc.FWMark)) := by
  constructor
  · intro svc a hA hG
    have hg : (convertSysCallProtoToSvcProto svc.Protocol == noneProtocol
        && svc.FWMark == 0) = false := by
      by_cases h1 : convertSysCallProtoToSvcProto svc.Protocol = noneProtocol
      · by_cases h2 : svc.FWMark = 0
        · exact absurd ⟨h1, h2⟩ hG
        · simp [h2]
      · simp [h1]
    unfold staleKeyOf
    rw [hA]
    simp [hg]
  · intro svc hA hM
    have hg : (convertSysCallProtoToSvcProto svc.Protocol == noneProtocol
        && svc.FWMark == 0) = false := by simp [hM]
    unfold staleKeyOf
    rw [hA]
    simp [hg, hM]

theorem C2_amended_key_priority_witness :
    staleKeyOf ⟨some "10.0.0.1", 6, 80, 5⟩ = some "10.0.0.1-tcp-80"
    ∧ staleKeyOf ⟨none, 0, 0, 7⟩ = some "7" :=
  ⟨(C2_amended_key_priority.1 ⟨some "10.0.0.1", 6, 80, 5⟩ "10.0.0.1" rfl
      (by decide)).trans (by decide),
   (C2_amended_key_priority.2 ⟨none, 0, 0, 7⟩ rfl (by decide)).trans (by decide)⟩

theorem lookup_filter_out_none {α : Type} :
    ∀ (l : List (Nat × α)) (k : Nat), (l.filter (fun p => p.1 != k)).lookup k = none
  | [], _ => rfl
  | (k', v) :: rest, k => by
    by_cases h : k' = k
    · subst h
      simp [List.filter, lookup_filter_out_none rest k']
    · have hb : (k' != k) = true := by simp [h]
      have hb' : (k == k') = false := by simp [Ne.symm h]
      simp [List.filter, hb, List.lookup, hb', lookup_filter_out_none rest k]

theorem cleanupMangleTableRule_fwMarkMap (env : Env) (st : St)
    (ip proto port markDec : String) (mss : Nat) :
    ((cleanupMangleTableRule env st ip proto port markDec mss).2).fwMarkMap
      = st.fwMarkMap := by
  unfold cleanupMangleTableRule
  split <;> rfl

theorem dsrMangleScan_fwMarkMap (env : Env) (nsc : Nsc) (ip proto : String)
    (port fwMark : Nat) :
    ∀ (lines : List String) (st : St),
      (dsrMangleScan env nsc ip proto port fwMark lines st).fwMarkMap = st.fwMarkMap
  | [], st => rfl
  | line :: rest, st => by
    unfold dsrMangleScan
    rcases hc : cleanupMangleTableRule env st ip proto (toString port)
        (toString fwMark) nsc.dsrTCPMSS with ⟨e, st'⟩
    have hfm : st'.fwMarkMap = st.fwMarkMap := by
      have := cleanupMangleTableRule_fwMarkMap env st ip proto (toString port)
        (toString fwMark) nsc.dsrTCPMSS
      rw [hc] at this
      exact this
    split
    · cases e with
      | none => exact hfm
      | some _ =>
        simpa [dsrMangleScan_fwMarkMap env nsc ip proto port fwMark rest st'] using hfm
    · exact dsrMangleScan_fwMarkMap env nsc ip proto port fwMark rest st

/-- C10: whenever a tuple is registered for the mark, `cleanupDSRService`
returns nil and drops the mark's registry binding, under EVERY fault
pattern — including a failing mangle-table dump and a mangle table with no
matching line. -/
theorem C10_binding_always_released (env : Env) (nsc : Nsc) (st : St) (fwMark : Nat)
    (t : String × String × Nat) (h : st.fwMarkMap.lookup fwMark = some t) :
    (cleanupDSRService env nsc fwMark st).1 = none
    ∧ ((cleanupDSRService env nsc fwMark st).2).fwMarkMap.lookup fwMark = none := by
  obtain ⟨ip, proto, port⟩ := t
  unfold cleanupDSRService lookupServiceByFWMark
  rw [h]
  exact ⟨rfl, by simp [dsrMangleScan_fwMarkMap, lookup_filter_out_none]⟩

theorem C10_binding_always_released_witness :
    (cleanupDSRService envSaveFail nsc0 300 stDSR).1 = none
    ∧ ((cleanupDSRService envSaveFail nsc0 300 stDSR).2).fwMarkMap.lookup 300 = none :=
  C10_binding_always_released envSaveFail nsc0 stDSR 300 ("203.0.113.9", "tcp", 443) rfl

theorem cleanupMangleTableRule_trace (env : Env) (st : St)
    (ip proto port markDec : String) (mss : Nat) :
    ((cleanupMangleTableRule env st ip proto port markDec mss).2).trace
      = st.trace ++ [Call.cleanupMangleTableRule ip proto port markDec] := by
  unfold cleanupMangleTableRule
  split <;> rfl

theorem cleanupMangleTableRule_ok (env : Env) (st : St)
    (ip proto port markDec : String) (mss : Nat)
    (h : env.failCleanupMangleTableRule = false) :
    (cleanupMangleTableRule env st ip proto port markDec mss).1 = none := by
  unfold cleanupMangleTableRule
  simp [h]

theorem dsrMangleScan_skip_nomatch (env : Env) (nsc : Nsc) (ip proto : String)
    (port fwMark : Nat) :
    ∀ (pre rest : List String) (st : St),
      (∀ l ∈ pre, (strContains l ip && strContains l (natToHex fwMark)) = false) →
      dsrMangleScan env nsc ip proto port fwMark (pre ++ rest) st
        = dsrMangleScan env nsc ip proto port fwMark rest st
  | [], rest, st, _ => rfl
  | line :: pre, rest, st, h => by
    have hl : (strContains line ip && strContains line (natToHex fwMark)) = false :=
      h line (by simp)
    have ih := dsrMangleScan_skip_nomatch env nsc ip proto port fwMark pre rest st
      (fun l hm => h l (by simp [hm]))
    simpa [dsrMangleScan, hl] using ih

/-- C7: `cleanupDSRService` on an unregistered mark returns an error and
changes nothing (no mangle rule removed, no binding dropped); on a
registered mark, it triggers the atomic rule cleanup at the FIRST saved
line containing both the external IP and the hex rendering of the mark,
and on its success stops scanning: exactly one cleanup invocation is
traced, with the mark passed in decimal. -/
theorem C7_dsr_cleanup_lookup_and_first_match :
    (∀ (env : Env) (nsc : Nsc) (st : St) (fwMark : Nat),
      st.fwMarkMap.lookup fwMark = none →
      (cleanupDSRService env nsc fwMark st).1.isSome = true
      ∧ (cleanupDSRService env nsc fwMark st).2 = st)
    ∧ (∀ (env : Env) (nsc : Nsc) (st : St) (fwMark : Nat) (ip proto : String)
        (port : Nat) (pre post : List String) (L : String),
      st.fwMarkMap.lookup fwMark = some (ip, proto, port) →
      env.failSaveMangle = false →
      env.failCleanupMangleTableRule = false →
      st.mangle = pre ++ L :: post →
      (∀ l ∈ pre, (strContains l ip && strContains l (natToHex fwMark)) = false) →
      (strContains L ip && strContains L (natToHex fwMark)) = true →
      ((cleanupDSRService env nsc fwMark st).2).trace
        = st.trace ++ [Call.cleanupMangleTableRule ip proto (toString port)
            (toString fwMark)]) := by
  constructor
  · intro env nsc st fwMark h
    unfold cleanupDSRService lookupServiceByFWMark
    rw [h]
    exact ⟨rfl, rfl⟩
  · intro env nsc st fwMark ip proto port pre post L hlk hs hcf hm hpre hL
    unfold cleanupDSRService lookupServiceByFWMark
    rw [hlk]
    simp only [saveMangle, hs, if_false, Bool.false_eq_true]
    rw [hm, dsrMangleScan_skip_nomatch env nsc ip proto port fwMark pre (L :: post) st hpre]
    unfold dsrMangleScan
    rw [hL]
    rcases hc : cleanupMangleTableRule env st ip proto (toString port)
        (toString fwMark) nsc.dsrTCPMSS with ⟨e, st'⟩
    have hok : e = none := by
      have := cleanupMangleTableRule_ok env st ip proto (toString port)
        (toString fwMark) nsc.dsrTCPMSS hcf
      rw [hc] at this
      exact this
    subst hok
    have htr := cleanupMangleTableRule_trace env st ip proto (toString port)
      (toString fwMark) nsc.dsrTCPMSS
    rw [hc] at htr
    simpa using htr

theorem C7_dsr_cleanup_lookup_and_first_match_witness :
    ((cleanupDSRService envOK nsc0 299 stDSR).1.isSome = true
      ∧ (cleanupDSRService envOK nsc0 299 stDSR).2 = stDSR)
    ∧ ((cleanupDSRService envOK nsc0 300 stDSR).2).trace
        = stDSR.trace ++ [Call.cleanupMangleTableRule "203.0.113.9" "tcp" "443" "300"] := by
  refine ⟨C7_dsr_cleanup_lookup_and_first_match.1 envOK nsc0 stDSR 299 (by decide), ?_⟩
  have := C7_dsr_cleanup_lookup_and_first_match.2 envOK nsc0 stDSR 300 "203.0.113.9"
    "tcp" 443 ["-A PREROUTING -d 9.9.9.9/32 -j MARK --set-xmark 0x5"]
    ["-A PREROUTING -d 203.0.113.9/32 extra sibling 12c"]
    (mangleRuleLine "203.0.113.9" "tcp" "443" (natToHex 300))
    (by decide) rfl rfl (by decide) (by decide) (by decide)
  simpa using this

theorem clusterIPLoop_err_none (env : Env)
    (em : List (String × List endpointsInfo))
    (hd : env.failGetKubeDummyInterface = false) :
    ∀ (l : List (String × serviceInfo)) (am : ActiveMap) (st : St),
      (clusterIPLoop env em l am st).1 = none
  | [], _, _ => rfl
  | (k, svc) :: rest, am, st => by
    unfold clusterIPLoop
    simp only [getKubeDummyInterface, hd, Bool.false_eq_true, if_false]
    rcases ha : ipAddrAdd env st svc.clusterIP with ⟨e, st'⟩
    cases e with
    | some _ => exact clusterIPLoop_err_none env em hd rest am st'
    | none =>
      dsimp only
      rcases hs : ipvsAddService env st' svc.clusterIP
          (convertSvcProtoToSysCallProto svc.protocol) svc.port with ⟨r, st''⟩
      cases r with
      | error _ => exact clusterIPLoop_err_none env em hd rest am st''
      | ok s => exact clusterIPLoop_err_none env em hd rest _ _

theorem nodePortSvcLoop_err_none (env : Env) (nsc : Nsc)
    (em : List (String × List endpointsInfo)) :
    ∀ (l : List (String × serviceInfo)) (am : ActiveMap) (st : St),
      (nodePortSvcLoop env nsc em l am st).1 = none
  | [], _, _ => rfl
  | (k, svc) :: rest, am, st => by
    unfold nodePortSvcLoop
    dsimp only
    split
    · exact nodePortSvcLoop_err_none env nsc em rest am st
    · split
      · exact nodePortSvcLoop_err_none env nsc em rest am st
      · split
        · split
          · exact nodePortSvcLoop_err_none env nsc em rest am st
          · split
            · exact nodePortSvcLoop_err_none env nsc em rest am st
            · exact nodePortSvcLoop_err_none env nsc em rest _ _
        · split
          · exact nodePortSvcLoop_err_none env nsc em rest am _
          · exact nodePortSvcLoop_err_none env nsc em rest _ _

/-- C1 (amended): in the cluster-IP and node-port steps a per-service
failure skips at most that service — given that the dummy interface can be
created and the IPVS table listed, the step completes without error for
EVERY fault pattern on the per-service operations; in the external-IP step,
by contrast, a per-service setup failure makes the step return before the
remaining services are attempted (see the counterexample). -/
theorem C1_amended_per_service_isolation (env : Env) (nsc : Nsc)
    (sm : List (String × serviceInfo)) (em : List (String × List endpointsInfo))
    (am : ActiveMap) (st : St)
    (hd : env.failGetKubeDummyInterface = false)
    (hg : env.failIpvsGetServices = false) :
    (setupClusterIPServices env sm em am st).1 = none
    ∧ (setupNodePortServices env nsc sm em am st).1 = none := by
  constructor
  · unfold setupClusterIPServices
    simp only [ipvsGetServices, hg, Bool.false_eq_true, if_false]
    exact clusterIPLoop_err_none env em hd sm am st
  · unfold setupNodePortServices
    simp only [ipvsGetServices, hg, Bool.false_eq_true, if_false]
    exact nodePortSvcLoop_err_none env nsc em sm am st

theorem C1_amended_per_service_isolation_witness :
    (setupClusterIPServices envC1 [("a", svcExtA), ("b", svcExtB)] [] [] st0).1 = none
    ∧ (setupNodePortServices envC1 nsc0 [("a", svcExtA), ("b", svcExtB)] [] [] st0).1
      = none :=
  C1_amended_per_service_isolation envC1 nsc0 [("a", svcExtA), ("b", svcExtB)] [] [] st0
    rfl rfl

theorem ipvsAddServer_svcs (env : Env) (st : St) (s : Option IpvsSvc) (d : Destination) :
    ((ipvsAddServer env st s d).2).svcs = st.svcs := by
  unfold ipvsAddServer
  split <;> rfl

theorem ipvsAddServer_dummyAddrs (env : Env) (st : St) (s : Option IpvsSvc)
    (d : Destination) :
    ((ipvsAddServer env st s d).2).dummyAddrs = st.dummyAddrs := by
  unfold ipvsAddServer
  split <;> rfl

theorem clusterIPEndpointLoop_svcs (env : Env) (svc : serviceInfo) (h : IpvsSvc)
    (cid : String) (full : List endpointsInfo) :
    ∀ (l : List endpointsInfo) (am : ActiveMap) (st : St),
      ((clusterIPEndpointLoop env svc h cid full l am st).2).svcs = st.svcs
  | [], _, _ => rfl
  | ep :: rest, am, st => by
    unfold clusterIPEndpointLoop
    split
    · exact clusterIPEndpointLoop_svcs env svc h cid full rest am st
    · rcases ha : ipvsAddServer env st (some h) ⟨ep.ip, ep.port, 1, false⟩ with ⟨e, st'⟩
      have hsv : st'.svcs = st.svcs := by
        have := ipvsAddServer_svcs env st (some h) ⟨ep.ip, ep.port, 1, false⟩
        rw [ha] at this
        exact this
      dsimp only
      rw [ha]
      cases e with
      | some _ =>
        dsimp only
        rw [clusterIPEndpointLoop_svcs env svc h cid full rest am st', hsv]
      | none =>
        dsimp only
        rw [clusterIPEndpointLoop_svcs env svc h cid full rest _ st', hsv]

theorem clusterIPEndpointLoop_dummyAddrs (env : Env) (svc : serviceInfo) (h : IpvsSvc)
    (cid : String) (full : List endpointsInfo) :
    ∀ (l : List endpointsInfo) (am : ActiveMap) (st : St),
      ((clusterIPEndpointLoop env svc h cid full l am st).2).dummyAddrs = st.dummyAddrs
  | [], _, _ => rfl
  | ep :: rest, am, st => by
    unfold clusterIPEndpointLoop
    split
    · exact clusterIPEndpointLoop_dummyAddrs env svc h cid full rest am st
    · rcases ha : ipvsAddServer env st (some h) ⟨ep.ip, ep.port, 1, false⟩ with ⟨e, st'⟩
      have hsv : st'.dummyAddrs = st.dummyAddrs := by
        have := ipvsAddServer_dummyAddrs env st (some h) ⟨ep.ip, ep.port, 1, false⟩
        rw [ha] at this
        exact this
      dsimp only
      rw [ha]
      cases e with
      | some _ =>
        dsimp only
        rw [clusterIPEndpointLoop_dummyAddrs env svc h cid full rest am st', hsv]
      | none =>
        dsimp only
        rw [clusterIPEndpointLoop_dummyAddrs env svc h cid full rest _ st', hsv]

theorem clusterIPEndpointLoop_lookup_ne (env : Env) (svc : serviceInfo) (h : IpvsSvc)
    (cid : String) (full : List endpointsInfo) (k' : String) (hne : k' ≠ cid) :
    ∀ (l : List endpointsInfo) (am : ActiveMap) (st : St),
      ((clusterIPEndpointLoop env svc h cid full l am st).1).lookup k' = am.lookup k'
  | [], _, _ => rfl
  | ep :: rest, am, st => by
    unfold clusterIPEndpointLoop
    split
    · exact clusterIPEndpointLoop_lookup_ne env svc h cid full k' hne rest am st
    · rcases ha : ipvsAddServer env st (some h) ⟨ep.ip, ep.port, 1, false⟩ with ⟨e, st'⟩
      dsimp only
      rw [ha]
      cases e with
      | some _ =>
        dsimp only
        exact clusterIPEndpointLoop_lookup_ne env svc h cid full k' hne rest am st'
      | none =>
        dsimp only
        rw [clusterIPEndpointLoop_lookup_ne env svc h cid full k' hne rest _ st',
          lookup_amAppend_ne _ _ _ _ hne]

theorem clusterIPEndpointLoop_lookup_self_isSome (env : Env) (svc : serviceInfo)
    (h : IpvsSvc) (cid : String) (full : List endpointsInfo) :
    ∀ (l : List endpointsInfo) (am : ActiveMap) (st : St),
      (am.lookup cid).isSome = true →
      (((clusterIPEndpointLoop env svc h cid full l am st).1).lookup cid).isSome = true
  | [], _, _, hs => hs
  | ep :: rest, am, st, hs => by
    unfold clusterIPEndpointLoop
    split
    · exact clusterIPEndpointLoop_lookup_self_isSome env svc h cid full rest am st hs
    · rcases ha : ipvsAddServer env st (some h) ⟨ep.ip, ep.port, 1, false⟩ with ⟨e, st'⟩
      dsimp only
      rw [ha]
      cases e with
      | some _ =>
        dsimp only
        exact clusterIPEndpointLoop_lookup_self_isSome env svc h cid full rest am st' hs
      | none =>
        dsimp only
        refine clusterIPEndpointLoop_lookup_self_isSome env svc h cid full rest _ st' ?_
        simp [amAppend, lookup_amSet_self]

theorem mem_ensure_append {α : Type} [BEq α] [LawfulBEq α] (l : List α) (a : α) :
    a ∈ (if l.contains a then l else l ++ [a]) := by
  split
  · next hc => exact (List.elem_iff).1 hc
  · simp

theorem clusterIPLoop_cons_skip (env : Env) (em : List (String × List endpointsInfo))
    (k1 : String) (s1 : serviceInfo) (rest : List (String × serviceInfo))
    (am : ActiveMap) (st : St) (e : String)
    (hd : env.failGetKubeDummyInterface = false)
    (h1 : env.ipAddrAddErr s1.clusterIP = some e) :
    clusterIPLoop env em ((k1, s1) :: rest) am st = clusterIPLoop env em rest am st := by
  rw [clusterIPLoop]
  simp only [getKubeDummyInterface, hd, Bool.false_eq_true, if_false]
  rw [show ipAddrAdd env st s1.clusterIP = (some e, st) from by
    unfold ipAddrAdd; rw [h1]]

theorem clusterIPLoop_cons_ok (env : Env) (em : List (String × List endpointsInfo))
    (k2 : String) (s2 : serviceInfo) (rest : List (String × serviceInfo))
    (am : ActiveMap) (st : St)
    (hd : env.failGetKubeDummyInterface = false)
    (h2 : env.ipAddrAddErr s2.clusterIP = none)
    (h3 : env.failIpvsAddService s2.clusterIP
        (convertSvcProtoToSysCallProto s2.protocol) s2.port = false) :
    clusterIPLoop env em ((k2, s2) :: rest) am st =
      clusterIPLoop env em rest
        (clusterIPEndpointLoop env s2
          ⟨some s2.clusterIP, convertSvcProtoToSysCallProto s2.protocol, s2.port, 0⟩
          (generateIPPortID s2.clusterIP s2.protocol (toString s2.port))
          ((em.lookup k2).getD []) ((em.lookup k2).getD [])
          (amSet am (generateIPPortID s2.clusterIP s2.protocol (toString s2.port)) [])
          { st with
            dummyAddrs :=
              if st.dummyAddrs.contains s2.clusterIP then st.dummyAddrs
              else st.dummyAddrs ++ [s2.clusterIP],
            svcs :=
              if st.svcs.contains
                  ⟨some s2.clusterIP, convertSvcProtoToSysCallProto s2.protocol, s2.port, 0⟩
                then st.svcs
              else st.svcs ++
                [⟨some s2.clusterIP, convertSvcProtoToSysCallProto s2.protocol, s2.port, 0⟩]
            }).1
        (clusterIPEndpointLoop env s2
          ⟨some s2.clusterIP, convertSvcProtoToSysCallProto s2.protocol, s2.port, 0⟩
          (generateIPPortID s2.clusterIP s2.protocol (toString s2.port))
          ((em.lookup k2).getD []) ((em.lookup k2).getD [])
          (amSet am (generateIPPortID s2.clusterIP s2.protocol (toString s2.port)) [])
          { st with
            dummyAddrs :=
              if st.dummyAddrs.contains s2.clusterIP then st.dummyAddrs
              else st.dummyAddrs ++ [s2.clusterIP],
            svcs :=
              if st.svcs.contains
                  ⟨some s2.clusterIP, convertSvcProtoToSysCallProto s2.protocol, s2.port, 0⟩
                then st.svcs
              else st.svcs ++
                [⟨some s2.clusterIP, convertSvcProtoToSysCallProto s2.protocol, s2.port, 0⟩]
            }).2 := by
  rw [clusterIPLoop]
  simp only [getKubeDummyInterface, hd, Bool.false_eq_true, if_false]
  rw [show ipAddrAdd env st s2.clusterIP
      = (none, { st with dummyAddrs :=
          if st.dummyAddrs.contains s2.clusterIP then st.dummyAddrs
          else st.dummyAddrs ++ [s2.clusterIP] }) from by
    unfold ipAddrAdd; rw [h2]]
  dsimp only
  unfold ipvsAddService
  rw [h3]
  simp only [Bool.false_eq_true, if_false]

/-- C6: in the cluster-IP pass, an already-present dummy-interface address
is success inside the (spec-modelled) adapter, so the service whose
cluster IP is already on the interface is still fully reconciled — its
IPVS virtual service ensured and its key recorded — while a service whose
address add fails with a real error is skipped alone, without aborting the
pass or touching its key. -/
theorem C6_already_present_treated_as_success (env : Env) (k1 k2 : String)
    (s1 s2 : serviceInfo) (em : List (String × List endpointsInfo))
    (am : ActiveMap) (st : St) (e : String)
    (hd : env.failGetKubeDummyInterface = false)
    (hg : env.failIpvsGetServices = false)
    (h1 : env.ipAddrAddErr s1.clusterIP = some e)
    (h2 : env.ipAddrAddErr s2.clusterIP = none)
    (h3 : env.failIpvsAddService s2.clusterIP
        (convertSvcProtoToSysCallProto s2.protocol) s2.port = false)
    (hpre : s2.clusterIP ∈ st.dummyAddrs)
    (hk : generateIPPortID s1.clusterIP s1.protocol (toString s1.port)
        ≠ generateIPPortID s2.clusterIP s2.protocol (toString s2.port)) :
    (setupClusterIPServices env [(k1, s1), (k2, s2)] em am st).1 = none
    ∧ ((setupClusterIPServices env [(k1, s1), (k2, s2)] em am st).2.1).lookup
        (generateIPPortID s1.clusterIP s1.protocol (toString s1.port))
      = am.lookup (generateIPPortID s1.clusterIP s1.protocol (toString s1.port))
    ∧ (((setupClusterIPServices env [(k1, s1), (k2, s2)] em am st).2.1).lookup
        (generateIPPortID s2.clusterIP s2.protocol (toString s2.port))).isSome = true
    ∧ (⟨some s2.clusterIP, convertSvcProtoToSysCallProto s2.protocol, s2.port, 0⟩ : IpvsSvc)
        ∈ ((setupClusterIPServices env [(k1, s1), (k2, s2)] em am st).2.2).svcs
    ∧ s2.clusterIP
        ∈ ((setupClusterIPServices env [(k1, s1), (k2, s2)] em am st).2.2).dummyAddrs := by
  have hsetup : setupClusterIPServices env [(k1, s1), (k2, s2)] em am st
      = clusterIPLoop env em [(k1, s1), (k2, s2)] am st := by
    unfold setupClusterIPServices
    simp only [ipvsGetServices, hg, Bool.false_eq_true, if_false]
  rw [hsetup, clusterIPLoop_cons_skip env em k1 s1 _ am st e hd h1,
    clusterIPLoop_cons_ok env em k2 s2 [] am st hd h2 h3, clusterIPLoop]
  dsimp only
  refine ⟨rfl, ?_, ?_, ?_, ?_⟩
  · rw [clusterIPEndpointLoop_lookup_ne env s2 _ _ _ _ hk,
      lookup_amSet_ne am _ _ [] hk]
  · exact clusterIPEndpointLoop_lookup_self_isSome env s2 _ _ _ _ _ _
      (by rw [lookup_amSet_self]; rfl)
  · rw [clusterIPEndpointLoop_svcs]
    exact mem_ensure_append st.svcs _
  · rw [clusterIPEndpointLoop_dummyAddrs]
    exact mem_ensure_append st.dummyAddrs s2.clusterIP

theorem C6_already_present_treated_as_success_witness :
    (setupClusterIPServices envC6 [("a", svcBase), ("b", svcC6b)] [] []
        ⟨["10.0.0.2"], [], [], [], [], [], []⟩).1 = none
    ∧ ((setupClusterIPServices envC6 [("a", svcBase), ("b", svcC6b)] [] []
        ⟨["10.0.0.2"], [], [], [], [], [], []⟩).2.1).lookup
        (generateIPPortID svcBase.clusterIP svcBase.protocol (toString svcBase.port))
      = List.lookup (generateIPPortID svcBase.clusterIP svcBase.protocol
          (toString svcBase.port)) []
    ∧ (((setupClusterIPServices envC6 [("a", svcBase), ("b", svcC6b)] [] []
        ⟨["10.0.0.2"], [], [], [], [], [], []⟩).2.1).lookup
        (generateIPPortID svcC6b.clusterIP svcC6b.protocol
          (toString svcC6b.port))).isSome = true
    ∧ (⟨some svcC6b.clusterIP, convertSvcProtoToSysCallProto svcC6b.protocol,
          svcC6b.port, 0⟩ : IpvsSvc)
        ∈ ((setupClusterIPServices envC6 [("a", svcBase), ("b", svcC6b)] [] []
            ⟨["10.0.0.2"], [], [], [], [], [], []⟩).2.2).svcs
    ∧ svcC6b.clusterIP
        ∈ ((setupClusterIPServices envC6 [("a", svcBase), ("b", svcC6b)] [] []
            ⟨["10.0.0.2"], [], [], [], [], [], []⟩).2.2).dummyAddrs :=
  C6_already_present_treated_as_success envC6 "a" "b" svcBase svcC6b [] []
    ⟨["10.0.0.2"], [], [], [], [], [], []⟩ "boom" rfl rfl (by decide) (by decide)
    (by decide) (by decide) (by decide)

theorem ipAddrDel_envOK (st : St) (ip : String) :
    ipAddrDel envOK st ip
      = (none, { st with dummyAddrs := st.dummyAddrs.filter (fun a => a != ip) }) := rfl

theorem staleVIPAddrLoop_sub (act : List String) :
    ∀ (l : List String) (st : St) (a : String),
      a ∈ (staleVIPAddrLoop envOK act l st).dummyAddrs →
      a ∈ st.dummyAddrs ∧ (a ∈ l → act.contains a = true)
  | [], st, a, h => ⟨h, fun hl => absurd hl (List.not_mem_nil a)⟩
  | addr :: rest, st, a, h => by
    rw [staleVIPAddrLoop] at h
    by_cases hc : act.contains addr = true
    · rw [if_pos hc] at h
      obtain ⟨h1, h2⟩ := staleVIPAddrLoop_sub act rest st a h
      refine ⟨h1, fun hl => ?_⟩
      rcases List.mem_cons.1 hl with rfl | hl'
      · exact hc
      · exact h2 hl'
    · rw [if_neg hc, ipAddrDel_envOK] at h
      dsimp only at h
      obtain ⟨h1, h2⟩ := staleVIPAddrLoop_sub act rest _ a h
      have hmem := List.mem_filter.1 h1
      refine ⟨hmem.1, fun hl => ?_⟩
      rcases List.mem_cons.1 hl with rfl | hl'
      · exact absurd hmem.2 (by simp)
      · exact h2 hl'

theorem cleanupMangleTableRule_svcs (env : Env) (st : St)
    (ip proto port markDec : String) (mss : Nat) :
    ((cleanupMangleTableRule env st ip proto port markDec mss).2).svcs = st.svcs := by
  unfold cleanupMangleTableRule
  split <;> rfl

theorem dsrMangleScan_svcs (env : Env) (nsc : Nsc) (ip proto : String)
    (port fwMark : Nat) :
    ∀ (lines : List String) (st : St),
      (dsrMangleScan env nsc ip proto port fwMark lines st).svcs = st.svcs
  | [], st => rfl
  | line :: rest, st => by
    unfold dsrMangleScan
    rcases hc : cleanupMangleTableRule env st ip proto (toString port)
        (toString fwMark) nsc.dsrTCPMSS with ⟨e, st'⟩
    have hfm : st'.svcs = st.svcs := by
      have := cleanupMangleTableRule_svcs env st ip proto (toString port)
        (toString fwMark) nsc.dsrTCPMSS
      rw [hc] at this
      exact this
    split
    · cases e with
      | none => exact hfm
      | some _ =>
        simpa [dsrMangleScan_svcs env nsc ip proto port fwMark rest st'] using hfm
    · exact dsrMangleScan_svcs env nsc ip proto port fwMark rest st

theorem cleanupDSRService_svcs (env : Env) (nsc : Nsc) (m : Nat) (st : St) :
    ((cleanupDSRService env nsc m st).2).svcs = st.svcs := by
  unfold cleanupDSRService
  cases hq : lookupServiceByFWMark st m with
  | error e => rfl
  | ok t =>
    obtain ⟨ip, proto, port⟩ := t
    dsimp only
    exact dsrMangleScan_svcs env nsc ip proto port m _ st

theorem ipvsDeleteDestination_svcs (env : Env) (st : St) (s : IpvsSvc)
    (d : Destination) :
    ((ipvsDeleteDestination env st s d).2).svcs = st.svcs := by
  unfold ipvsDeleteDestination
  split <;> rfl

theorem staleDestLoop_svcs (env : Env) (x : IpvsSvc) (ids : List String) :
    ∀ (dsts : List Destination) (st : St),
      (staleDestLoop env x ids dsts st).svcs = st.svcs
  | [], st => rfl
  | d :: rest, st => by
    unfold staleDestLoop
    split
    · exact staleDestLoop_svcs env x ids rest st
    · rcases hc : ipvsDeleteDestination env st x d with ⟨e, st'⟩
      have hsv : st'.svcs = st.svcs := by
        have := ipvsDeleteDestination_svcs env st x d
        rw [hc] at this
        exact this
      cases e with
      | some _ =>
        dsimp only
        rw [staleDestLoop_svcs env x ids rest st', hsv]
      | none =>
        dsimp only
        rw [staleDestLoop_svcs env x ids rest st', hsv]

theorem ipvsDelService_envOK (st : St) (s : IpvsSvc) :
    ipvsDelService envOK st s
      = (none, { st with
          svcs := st.svcs.filter (fun a => a != s),
          dests := st.dests.filter (fun p => p.1 != some s) }) := rfl

theorem staleSweep_st1_svcs (nsc : Nsc) (st : St) (y : IpvsSvc) :
    (if (y.FWMark != 0) = true then
        match lookupServiceByFWMark st y.FWMark with
        | .error _ => st
        | .ok _ => (cleanupDSRService envOK nsc y.FWMark st).2
      else st).svcs = st.svcs := by
  split
  · split
    · rfl
    · exact cleanupDSRService_svcs envOK nsc y.FWMark st
  · rfl

theorem staleSvcLoop_sub (nsc : Nsc) (am : ActiveMap) :
    ∀ (l : List IpvsSvc) (st : St) (x : IpvsSvc),
      x ∈ (staleSvcLoop envOK nsc am l st).svcs →
      x ∈ st.svcs ∧ (x ∈ l → svcKeptOK am nsc x = true)
  | [], st, x, h => ⟨h, fun hl => absurd hl (List.not_mem_nil x)⟩
  | y :: rest, st, x, h => by
    rw [staleSvcLoop] at h
    cases hk : staleKeyOf y with
    | none =>
      rw [hk] at h
      try dsimp only at h
      obtain ⟨h1, h2⟩ := staleSvcLoop_sub nsc am rest st x h
      refine ⟨h1, fun hl => ?_⟩
      rcases List.mem_cons.1 hl with rfl | hl'
      · simp [svcKeptOK, hk]
      · exact h2 hl'
    | some key =>
      rw [hk] at h
      try dsimp only at h
      cases hlk : am.lookup key with
      | some ids =>
        rw [hlk] at h
        try dsimp only at h
        obtain ⟨h1, h2⟩ := staleSvcLoop_sub nsc am rest _ x h
        rw [staleDestLoop_svcs] at h1
        refine ⟨h1, fun hl => ?_⟩
        rcases List.mem_cons.1 hl with rfl | hl'
        · simp [svcKeptOK, hk, hlk]
        · exact h2 hl'
      | none =>
        rw [hlk] at h
        try dsimp only at h
        by_cases hx : (nsc.excludedCidrs.any fun cidr => cidrContains cidr y.Address) = true
        · rw [if_pos hx] at h
          obtain ⟨h1, h2⟩ := staleSvcLoop_sub nsc am rest st x h
          refine ⟨h1, fun hl => ?_⟩
          rcases List.mem_cons.1 hl with rfl | hl'
          · simp [svcKeptOK, hk, hlk, hx]
          · exact h2 hl'
        · rw [if_neg hx] at h
          try dsimp only at h
          rw [ipvsDelService_envOK] at h
          try dsimp only at h
          obtain ⟨h1, h2⟩ := staleSvcLoop_sub nsc am rest _ x h
          dsimp only at h1
          have hmem := List.mem_filter.1 h1
          have hne : x ≠ y := by simpa using hmem.2
          have hst : x ∈ st.svcs := by
            have heq := staleSweep_st1_svcs nsc st y
            rw [heq] at hmem
            exact hmem.1
          refine ⟨hst, fun hl => ?_⟩
          rcases List.mem_cons.1 hl with rfl | hl'
          · exact absurd rfl hne
          · exact h2 hl'

/-- C3 (amended): after the stale-VIP sweep completes with every deletion
succeeding, every address still on the dummy interface is derived from an
active dash-keyed service; after the stale-IPVS sweep completes likewise,
every remaining IPVS virtual service is accounted for — skipped by the
tcp/udp protocol guard, keyed in the active map, or inside an excluded
CIDR.  (Mangle rules and guard-skipped foreign-protocol entries are NOT
swept — see the counterexample.) -/
theorem C3_amended_sweep_invariants (am : ActiveMap) (nsc : Nsc) (stV stI : St) :
    (∀ a ∈ ((cleanupStaleVIPs envOK am stV).2).dummyAddrs, a ∈ buildAddrActive am)
    ∧ (∀ svc ∈ ((cleanupStaleIPVSConfig envOK nsc am stI).2).svcs,
        svcKeptOK am nsc svc = true) := by
  constructor
  · intro a ha
    have hred : (cleanupStaleVIPs envOK am stV).2
        = staleVIPAddrLoop envOK (buildAddrActive am) stV.dummyAddrs stV := rfl
    rw [hred] at ha
    obtain ⟨h1, h2⟩ := staleVIPAddrLoop_sub (buildAddrActive am) stV.dummyAddrs stV a ha
    exact List.elem_iff.1 (h2 h1)
  · intro svc hs
    have hred : (cleanupStaleIPVSConfig envOK nsc am stI).2
        = staleSvcLoop envOK nsc am stI.svcs stI := rfl
    rw [hred] at hs
    obtain ⟨h1, h2⟩ := staleSvcLoop_sub nsc am stI.svcs stI svc hs
    exact h2 h1

theorem C3_amended_sweep_invariants_witness :
    "10.0.0.1" ∈ buildAddrActive [("10.0.0.1-tcp-80", [])]
    ∧ svcKeptOK [("10.0.0.1-tcp-80", [])] nsc0 ⟨some "10.0.0.1", 6, 80, 0⟩ = true :=
  ⟨(C3_amended_sweep_invariants [("10.0.0.1-tcp-80", [])] nsc0
      ⟨["10.0.0.1"], [], [], [], [], [], []⟩ st0).1 "10.0.0.1" (by decide),
   (C3_amended_sweep_invariants [("10.0.0.1-tcp-80", [])] nsc0 st0
      ⟨[], [⟨some "10.0.0.1", 6, 80, 0⟩], [], [], [], [], []⟩).2
      ⟨some "10.0.0.1", 6, 80, 0⟩ (by decide)⟩

theorem ipvsDeleteDestination_envOK (st : St) (s : IpvsSvc) (d : Destination) :
    ipvsDeleteDestination envOK st s d
      = (none, { st with dests := st.dests.filter (fun p => p != (some s, d)) }) := rfl

theorem filter_key_of_filter (svc : IpvsSvc) (φ : Option IpvsSvc × Destination → Bool)
    (h : ∀ p, p.1 = some svc → φ p = true) :
    ∀ (l : List (Option IpvsSvc × Destination)),
      (l.filter φ).filter (fun p => p.1 == some svc)
        = l.filter (fun p => p.1 == some svc)
  | [] => rfl
  | p :: rest => by
    by_cases hp : p.1 = some svc
    · have hφ : φ p = true := h p hp
      have hb : (p.1 == some svc) = true := by simp [hp]
      simp only [List.filter_cons, hφ, hb, if_true]
      rw [filter_key_of_filter svc φ h rest]
    · have hb : (p.1 == some svc) = false := by simp [hp]
      by_cases hφ : φ p = true
      · simp only [List.filter_cons, hφ, hb, if_true, Bool.false_eq_true, if_false]
        rw [filter_key_of_filter svc φ h rest]
      · have hφ' : φ p = false := by revert hφ; cases φ p <;> simp
        simp only [List.filter_cons, hφ', hb, Bool.false_eq_true, if_false]
        rw [filter_key_of_filter svc φ h rest]

theorem destsOf_filter_keep (st : St) (φ : Option IpvsSvc × Destination → Bool)
    (svc : IpvsSvc) (h : ∀ p, p.1 = some svc → φ p = true) :
    destsOf { st with dests := st.dests.filter φ } svc = destsOf st svc := by
  unfold destsOf
  rw [filter_key_of_filter svc φ h st.dests]

theorem destsOf_congr (st₁ st₂ : St) (svc : IpvsSvc) (h : st₁.dests = st₂.dests) :
    destsOf st₁ svc = destsOf st₂ svc := by
  unfold destsOf
  rw [h]

theorem cleanupMangleTableRule_dests (env : Env) (st : St)
    (ip proto port markDec : String) (mss : Nat) :
    ((cleanupMangleTableRule env st ip proto port markDec mss).2).dests = st.dests := by
  unfold cleanupMangleTableRule
  split <;> rfl

theorem dsrMangleScan_dests (env : Env) (nsc : Nsc) (ip proto : String)
    (port fwMark : Nat) :
    ∀ (lines : List String) (st : St),
      (dsrMangleScan env nsc ip proto port fwMark lines st).dests = st.dests
  | [], st => rfl
  | line :: rest, st => by
    unfold dsrMangleScan
    rcases hc : cleanupMangleTableRule env st ip proto (toString port)
        (toString fwMark) nsc.dsrTCPMSS with ⟨e, st'⟩
    have hfm : st'.dests = st.dests := by
      have := cleanupMangleTableRule_dests env st ip proto (toString port)
        (toString fwMark) nsc.dsrTCPMSS
      rw [hc] at this
      exact this
    split
    · cases e with
      | none => exact hfm
      | some _ =>
        simpa [dsrMangleScan_dests env nsc ip proto port fwMark rest st'] using hfm
    · exact dsrMangleScan_dests env nsc ip proto port fwMark rest st

theorem cleanupDSRService_dests (env : Env) (nsc : Nsc) (m : Nat) (st : St) :
    ((cleanupDSRService env nsc m st).2).dests = st.dests := by
  unfold cleanupDSRService
  cases hq : lookupServiceByFWMark st m with
  | error e => rfl
  | ok t =>
    obtain ⟨ip, proto, port⟩ := t
    dsimp only
    exact dsrMangleScan_dests env nsc ip proto port m _ st

theorem staleSweep_st1_dests (nsc : Nsc) (st : St) (y : IpvsSvc) :
    (if (y.FWMark != 0) = true then
        match lookupServiceByFWMark st y.FWMark with
        | .error _ => st
        | .ok _ => (cleanupDSRService envOK nsc y.FWMark st).2
      else st).dests = st.dests := by
  split
  · split
    · rfl
    · exact cleanupDSRService_dests envOK nsc y.FWMark st
  · rfl

theorem filter_key_delete (x : IpvsSvc) (d : Destination) :
    ∀ (l : List (Option IpvsSvc × Destination)),
      ((l.filter (fun p => p != (some x, d))).filter (fun p => p.1 == some x)).map (·.2)
        = ((l.filter (fun p => p.1 == some x)).map (·.2)).filter (fun e => e != d)
  | [] => rfl
  | (p1, p2) :: rest => by
    by_cases h1 : p1 = some x
    · subst h1
      by_cases h2 : p2 = d
      · rw [h2]
        simp only [List.filter_cons, bne_self_eq_false, Bool.false_eq_true, if_false,
          beq_self_eq_true, if_true, List.map_cons]
        rw [filter_key_delete x d rest]
      · have hpair : (((some x, p2) : Option IpvsSvc × Destination)
            != ((some x, d) : Option IpvsSvc × Destination)) = true := by
          simp [Prod.ext_iff, h2]
        have hne2 : (p2 != d) = true := by simp [h2]
        simp only [List.filter_cons, hpair, if_true, beq_self_eq_true, List.map_cons, hne2]
        rw [filter_key_delete x d rest]
    · have hpair : (((p1, p2) : Option IpvsSvc × Destination)
          != ((some x, d) : Option IpvsSvc × Destination)) = true := by
        simp [Prod.ext_iff, h1]
      have hk : ((p1 : Option IpvsSvc) == some x) = false := by simp [h1]
      simp only [List.filter_cons, hpair, if_true, hk, Bool.false_eq_true, if_false]
      rw [filter_key_delete x d rest]

theorem destsOf_delete_pair (st : St) (x : IpvsSvc) (d : Destination) :
    destsOf { st with dests := st.dests.filter (fun p => p != (some x, d)) } x
      = (destsOf st x).filter (fun e => e != d) := by
  unfold destsOf
  exact filter_key_delete x d st.dests

theorem staleDestLoop_destsOf_self (x : IpvsSvc) (ids : List String) :
    ∀ (dsts : List Destination) (st : St),
      destsOf (staleDestLoop envOK x ids dsts st) x
        = (destsOf st x).filter (fun e => !(dsts.contains e) || epValid ids e)
  | [], st => by
    rw [staleDestLoop]
    exact (List.filter_eq_self.2 (fun a _ => by simp)).symm
  | d :: rest, st => by
    rw [staleDestLoop]
    by_cases hv : epValid ids d = true
    · rw [if_pos hv, staleDestLoop_destsOf_self x ids rest st]
      apply List.filter_congr
      intro e he
      by_cases hed : e = d
      · subst hed
        simp [hv]
      · simp [hed]
    · rw [if_neg hv, ipvsDeleteDestination_envOK]
      dsimp only
      rw [staleDestLoop_destsOf_self x ids rest _, destsOf_delete_pair st x d,
        List.filter_filter]
      apply List.filter_congr
      intro e he
      by_cases hed : e = d
      · subst hed
        have hv' : epValid ids e = false := by revert hv; cases epValid ids e <;> simp
        simp [hv']
      · simp [hed]

theorem staleDestLoop_destsOf_other (y : IpvsSvc) (ids : List String) (svc : IpvsSvc)
    (hne : svc ≠ y) :
    ∀ (dsts : List Destination) (st : St),
      destsOf (staleDestLoop envOK y ids dsts st) svc = destsOf st svc
  | [], st => by rw [staleDestLoop]
  | d :: rest, st => by
    rw [staleDestLoop]
    by_cases hv : epValid ids d = true
    · rw [if_pos hv]
      exact staleDestLoop_destsOf_other y ids svc hne rest st
    · rw [if_neg hv, ipvsDeleteDestination_envOK]
      dsimp only
      rw [staleDestLoop_destsOf_other y ids svc hne rest _]
      apply destsOf_filter_keep
      intro p hp
      have hp' : p ≠ ((some y, d) : Option IpvsSvc × Destination) := by
        intro he
        rw [he] at hp
        exact hne (Option.some.inj hp).symm
      simp [hp']

theorem dsts_envOK (st : St) (y : IpvsSvc) :
    (match ipvsGetDestinations envOK st y with
      | .error _ => []
      | .ok d => d) = destsOf st y := rfl

theorem staleSvcLoop_cons_nokey (nsc : Nsc) (am : ActiveMap) (y : IpvsSvc)
    (rest : List IpvsSvc) (st : St) (hky : staleKeyOf y = none) :
    staleSvcLoop envOK nsc am (y :: rest) st = staleSvcLoop envOK nsc am rest st := by
  rw [staleSvcLoop, hky]

theorem staleSvcLoop_cons_present (nsc : Nsc) (am : ActiveMap) (y : IpvsSvc)
    (ky : String) (ids' : List String) (rest : List IpvsSvc) (st : St)
    (hky : staleKeyOf y = some ky) (hlky : am.lookup ky = some ids') :
    staleSvcLoop envOK nsc am (y :: rest) st
      = staleSvcLoop envOK nsc am rest (staleDestLoop envOK y ids' (destsOf st y) st) := by
  rw [staleSvcLoop, hky]
  try dsimp only
  rw [hlky]
  try dsimp only
  rw [dsts_envOK]

theorem staleSvcLoop_cons_excluded (nsc : Nsc) (am : ActiveMap) (y : IpvsSvc)
    (ky : String) (rest : List IpvsSvc) (st : St)
    (hky : staleKeyOf y = some ky) (hlky : am.lookup ky = none)
    (hx : (nsc.excludedCidrs.any fun cidr => cidrContains cidr y.Address) = true) :
    staleSvcLoop envOK nsc am (y :: rest) st = staleSvcLoop envOK nsc am rest st := by
  rw [staleSvcLoop, hky]
  try dsimp only
  rw [hlky]
  try dsimp only
  rw [if_pos hx]

theorem staleSvcLoop_cons_del (nsc : Nsc) (am : ActiveMap) (y : IpvsSvc)
    (ky : String) (rest : List IpvsSvc) (st : St)
    (hky : staleKeyOf y = some ky) (hlky : am.lookup ky = none)
    (hx : (nsc.excludedCidrs.any fun cidr => cidrContains cidr y.Address) = false) :
    staleSvcLoop envOK nsc am (y :: rest) st
      = staleSvcLoop envOK nsc am rest (staleDeleteState nsc st y) := by
  rw [staleSvcLoop, hky]
  try dsimp only
  rw [hlky]
  try dsimp only
  rw [if_neg (by rw [hx]; exact Bool.false_ne_true)]
  try dsimp only
  rw [ipvsDelService_envOK]
  rfl

theorem staleDeleteState_mem_svcs (nsc : Nsc) (st : St) (y svc : IpvsSvc)
    (hmem : svc ∈ st.svcs) (hne : svc ≠ y) :
    svc ∈ (staleDeleteState nsc st y).svcs := by
  unfold staleDeleteState
  dsimp only
  refine List.mem_filter.2 ⟨?_, by simp [hne]⟩
  rw [staleSweep_st1_svcs]
  exact hmem

theorem staleDeleteState_destsOf (nsc : Nsc) (st : St) (y svc : IpvsSvc)
    (hne : svc ≠ y) :
    destsOf (staleDeleteState nsc st y) svc = destsOf st svc := by
  unfold staleDeleteState
  dsimp only
  unfold destsOf
  dsimp only
  rw [filter_key_of_filter svc _ (fun p hp => by
    have : p.1 ≠ some y := by rw [hp]; simp [hne]
    simp [this])]
  rw [show (if (y.FWMark != 0) = true then
        match lookupServiceByFWMark st y.FWMark with
        | .error _ => st
        | .ok _ => (cleanupDSRService envOK nsc y.FWMark st).2
      else st).dests = st.dests from staleSweep_st1_dests nsc st y]

theorem staleSvcLoop_keeps (nsc : Nsc) (am : ActiveMap) (svc : IpvsSvc) (key : String)
    (ids : List String) (hk : staleKeyOf svc = some key) (hlk : am.lookup key = some ids) :
    ∀ (l : List IpvsSvc) (st : St), svc ∈ st.svcs →
      svc ∈ (staleSvcLoop envOK nsc am l st).svcs
      ∧ (svc ∉ l → destsOf (staleSvcLoop envOK nsc am l st) svc = destsOf st svc)
      ∧ (svc ∈ l → destsOf (staleSvcLoop envOK nsc am l st) svc
          = (destsOf st svc).filter (epValid ids))
  | [], st, hmem =>
    ⟨hmem, fun _ => by rw [staleSvcLoop], fun hl => absurd hl (List.not_mem_nil svc)⟩
  | y :: rest, st, hmem => by
    by_cases hxy : svc = y
    · subst hxy
      rw [staleSvcLoop_cons_present nsc am svc key ids rest st hk hlk]
      have hmem2 : svc ∈ (staleDestLoop envOK svc ids (destsOf st svc) st).svcs := by
        rw [staleDestLoop_svcs]
        exact hmem
      have hd2 : destsOf (staleDestLoop envOK svc ids (destsOf st svc) st) svc
          = (destsOf st svc).filter (epValid ids) := by
        rw [staleDestLoop_destsOf_self]
        exact List.filter_congr (fun e he => by
          have hc : (destsOf st svc).contains e = true := List.elem_iff.2 he
          rw [hc, Bool.not_true, Bool.false_or])
      obtain ⟨m1, m2, m3⟩ := staleSvcLoop_keeps nsc am svc key ids hk hlk rest _ hmem2
      refine ⟨m1, fun hnl => absurd (List.mem_cons_self svc rest) hnl, fun _ => ?_⟩
      by_cases hrest : svc ∈ rest
      · rw [m3 hrest, hd2, List.filter_filter]
        exact List.filter_congr (fun e he => by cases hve : epValid ids e <;> simp [hve])
      · rw [m2 hrest, hd2]
    · cases hky : staleKeyOf y with
      | none =>
        rw [staleSvcLoop_cons_nokey nsc am y rest st hky]
        obtain ⟨m1, m2, m3⟩ := staleSvcLoop_keeps nsc am svc key ids hk hlk rest st hmem
        refine ⟨m1, fun hnl => m2 (fun hr => hnl (List.mem_cons_of_mem y hr)), fun hl => ?_⟩
        rcases List.mem_cons.1 hl with h' | hr
        · exact absurd h' hxy
        · exact m3 hr
      | some ky =>
        cases hlky : am.lookup ky with
        | some ids' =>
          rw [staleSvcLoop_cons_present nsc am y ky ids' rest st hky hlky]
          have hmem2 : svc ∈ (staleDestLoop envOK y ids' (destsOf st y) st).svcs := by
            rw [staleDestLoop_svcs]
            exact hmem
          obtain ⟨m1, m2, m3⟩ := staleSvcLoop_keeps nsc am svc key ids hk hlk rest _ hmem2
          have hpres := staleDestLoop_destsOf_other y ids' svc hxy (destsOf st y) st
          refine ⟨m1, fun hnl => ?_, fun hl => ?_⟩
          · rw [m2 (fun hr => hnl (List.mem_cons_of_mem y hr)), hpres]
          · rcases List.mem_cons.1 hl with h' | hr
            · exact absurd h' hxy
            · rw [m3 hr, hpres]
        | none =>
          by_cases hx : (nsc.excludedCidrs.any fun cidr => cidrContains cidr y.Address) = true
          · rw [staleSvcLoop_cons_excluded nsc am y ky rest st hky hlky hx]
            obtain ⟨m1, m2, m3⟩ := staleSvcLoop_keeps nsc am svc key ids hk hlk rest st hmem
            refine ⟨m1, fun hnl => m2 (fun hr => hnl (List.mem_cons_of_mem y hr)),
              fun hl => ?_⟩
            rcases List.mem_cons.1 hl with h' | hr
            · exact absurd h' hxy
            · exact m3 hr
          · have hx' : (nsc.excludedCidrs.any fun cidr => cidrContains cidr y.Address)
                = false := by
              revert hx
              cases nsc.excludedCidrs.any fun cidr => cidrContains cidr y.Address <;> simp
            rw [staleSvcLoop_cons_del nsc am y ky rest st hky hlky hx']
            have hmem2 := staleDeleteState_mem_svcs nsc st y svc hmem hxy
            obtain ⟨m1, m2, m3⟩ := staleSvcLoop_keeps nsc am svc key ids hk hlk rest _ hmem2
            have hpres := staleDeleteState_destsOf nsc st y svc hxy
            refine ⟨m1, fun hnl => ?_, fun hl => ?_⟩
            · rw [m2 (fun hr => hnl (List.mem_cons_of_mem y hr)), hpres]
            · rcases List.mem_cons.1 hl with h' | hr
              · exact absurd h' hxy
              · rw [m3 hr, hpres]

/-- C5: a virtual service whose key is present in the active map — even
mapped to the empty endpoint list — is never deleted by the stale-IPVS
sweep; instead exactly those of its real servers whose "ip:port" endpoint
ID is not in the key's active list are removed. -/
theorem C5_present_key_prunes_only_endpoints (nsc : Nsc) (am : ActiveMap) (st : St)
    (svc : IpvsSvc) (key : String) (ids : List String)
    (hk : staleKeyOf svc = some key) (hlk : am.lookup key = some ids)
    (hmem : svc ∈ st.svcs) :
    svc ∈ ((cleanupStaleIPVSConfig envOK nsc am st).2).svcs
    ∧ destsOf (cleanupStaleIPVSConfig envOK nsc am st).2 svc
        = (destsOf st svc).filter (epValid ids) := by
  have hred : (cleanupStaleIPVSConfig envOK nsc am st).2
      = staleSvcLoop envOK nsc am st.svcs st := rfl
  rw [hred]
  obtain ⟨m1, _, m3⟩ := staleSvcLoop_keeps nsc am svc key ids hk hlk st.svcs st hmem
  exact ⟨m1, m3 hmem⟩

theorem C5_present_key_prunes_only_endpoints_witness :
    ((⟨some "10.0.0.1", 6, 80, 0⟩ : IpvsSvc)
      ∈ ((cleanupStaleIPVSConfig envOK nsc0 [("10.0.0.1-tcp-80", ["10.1.0.2:8080"])]
          ⟨[], [⟨some "10.0.0.1", 6, 80, 0⟩],
            [(some ⟨some "10.0.0.1", 6, 80, 0⟩, ⟨"10.1.0.2", 8080, 1, false⟩),
             (some ⟨some "10.0.0.1", 6, 80, 0⟩, ⟨"10.1.0.9", 8080, 1, false⟩)],
            [], [], [], []⟩).2).svcs
    ∧ destsOf (cleanupStaleIPVSConfig envOK nsc0 [("10.0.0.1-tcp-80", ["10.1.0.2:8080"])]
          ⟨[], [⟨some "10.0.0.1", 6, 80, 0⟩],
            [(some ⟨some "10.0.0.1", 6, 80, 0⟩, ⟨"10.1.0.2", 8080, 1, false⟩),
             (some ⟨some "10.0.0.1", 6, 80, 0⟩, ⟨"10.1.0.9", 8080, 1, false⟩)],
            [], [], [], []⟩).2 ⟨some "10.0.0.1", 6, 80, 0⟩
        = (destsOf ⟨[], [⟨some "10.0.0.1", 6, 80, 0⟩],
            [(some ⟨some "10.0.0.1", 6, 80, 0⟩, ⟨"10.1.0.2", 8080, 1, false⟩),
             (some ⟨some "10.0.0.1", 6, 80, 0⟩, ⟨"10.1.0.9", 8080, 1, false⟩)],
            [], [], [], []⟩ ⟨some "10.0.0.1", 6, 80, 0⟩).filter
            (epValid ["10.1.0.2:8080"]))
    ∧ ((⟨some "10.0.0.2", 6, 80, 0⟩ : IpvsSvc)
      ∈ ((cleanupStaleIPVSConfig envOK nsc0 [("10.0.0.2-tcp-80", [])]
          ⟨[], [⟨some "10.0.0.2", 6, 80, 0⟩], [], [], [], [], []⟩).2).svcs) := by
  refine ⟨⟨?_, ?_⟩, ?_⟩
  · exact (C5_present_key_prunes_only_endpoints nsc0
      [("10.0.0.1-tcp-80", ["10.1.0.2:8080"])]
      ⟨[], [⟨some "10.0.0.1", 6, 80, 0⟩],
        [(some ⟨some "10.0.0.1", 6, 80, 0⟩, ⟨"10.1.0.2", 8080, 1, false⟩),
         (some ⟨some "10.0.0.1", 6, 80, 0⟩, ⟨"10.1.0.9", 8080, 1, false⟩)],
        [], [], [], []⟩ ⟨some "10.0.0.1", 6, 80, 0⟩ "10.0.0.1-tcp-80" ["10.1.0.2:8080"]
      (by decide) (by decide) (by decide)).1
  · exact (C5_present_key_prunes_only_endpoints nsc0
      [("10.0.0.1-tcp-80", ["10.1.0.2:8080"])]
      ⟨[], [⟨some "10.0.0.1", 6, 80, 0⟩],
        [(some ⟨some "10.0.0.1", 6, 80, 0⟩, ⟨"10.1.0.2", 8080, 1, false⟩),
         (some ⟨some "10.0.0.1", 6, 80, 0⟩, ⟨"10.1.0.9", 8080, 1, false⟩)],
        [], [], [], []⟩ ⟨some "10.0.0.1", 6, 80, 0⟩ "10.0.0.1-tcp-80" ["10.1.0.2:8080"]
      (by decide) (by decide) (by decide)).2
  · exact (C5_present_key_prunes_only_endpoints nsc0 [("10.0.0.2-tcp-80", [])]
      ⟨[], [⟨some "10.0.0.2", 6, 80, 0⟩], [], [], [], [], []⟩
      ⟨some "10.0.0.2", 6, 80, 0⟩ "10.0.0.2-tcp-80" []
      (by decide) (by decide) (by decide)).1

theorem ipvsAddServer_envOK (st : St) (s : Option IpvsSvc) (d : Destination) :
    ipvsAddServer envOK st s d
      = (none, { st with
          trace := st.trace ++ [Call.ipvsAddServer s d],
          dests := if st.dests.contains (s, d) then st.dests
            else st.dests ++ [(s, d)] }) := rfl

theorem clusterIPEndpointLoop_amGet (svc : serviceInfo) (h : IpvsSvc) (cid : String)
    (full : List endpointsInfo) :
    ∀ (l : List endpointsInfo) (am : ActiveMap) (st : St),
      amGet (clusterIPEndpointLoop envOK svc h cid full l am st).1 cid
        = amGet am cid
          ++ (l.filter (fun e => !(svc.local' && (hasActiveEndpoints full && !e.isLocal)))).map
              (fun e => generateEndpointID e.ip (toString e.port))
  | [], am, st => by rw [clusterIPEndpointLoop]; simp
  | ep :: rest, am, st => by
    rw [clusterIPEndpointLoop]
    by_cases hp : (svc.local' && (hasActiveEndpoints full && !ep.isLocal)) = true
    · rw [if_pos hp]
      rw [clusterIPEndpointLoop_amGet svc h cid full rest am st]
      have hf : (fun e => !(svc.local' && (hasActiveEndpoints full && !e.isLocal))) ep
          = false := by simpa using hp
      simp only [List.filter_cons, hf, Bool.false_eq_true, if_false]
    · rw [if_neg hp]
      dsimp only
      rw [ipvsAddServer_envOK]
      dsimp only
      rw [clusterIPEndpointLoop_amGet svc h cid full rest _ _, amGet_amAppend_self]
      have hp' : (svc.local' && (hasActiveEndpoints full && !ep.isLocal)) = false := by
        cases hX : (svc.local' && (hasActiveEndpoints full && !ep.isLocal))
        · rfl
        · exact absurd hX hp
      have hf : (fun e => !(svc.local' && (hasActiveEndpoints full && !e.isLocal))) ep
          = true := by simp [hp']
      simp only [List.filter_cons, hf, if_true, List.map_cons, List.append_assoc,
        List.cons_append, List.nil_append]

theorem clusterIPEndpointLoop_dests (svc : serviceInfo) (h : IpvsSvc) (cid : String)
    (full : List endpointsInfo) :
    ∀ (l : List endpointsInfo) (am : ActiveMap) (st : St),
      (∀ e ∈ l, ((some h : Option IpvsSvc), (⟨e.ip, e.port, 1, false⟩ : Destination))
        ∉ st.dests) →
      ((l.map (fun e => (⟨e.ip, e.port, 1, false⟩ : Destination))).Nodup) →
      (clusterIPEndpointLoop envOK svc h cid full l am st).2.dests
        = st.dests
          ++ (l.filter (fun e => !(svc.local' && (hasActiveEndpoints full && !e.isLocal)))).map
              (fun e => ((some h : Option IpvsSvc), (⟨e.ip, e.port, 1, false⟩ : Destination)))
  | [], am, st, _, _ => by rw [clusterIPEndpointLoop]; simp
  | ep :: rest, am, st, hfresh, hnd => by
    rw [clusterIPEndpointLoop]
    have hndrest : ((rest.map (fun e => (⟨e.ip, e.port, 1, false⟩ : Destination))).Nodup) :=
      (List.nodup_cons.1 hnd).2
    have hhead : (⟨ep.ip, ep.port, 1, false⟩ : Destination)
        ∉ rest.map (fun e => (⟨e.ip, e.port, 1, false⟩ : Destination)) :=
      (List.nodup_cons.1 hnd).1
    by_cases hp : (svc.local' && (hasActiveEndpoints full && !ep.isLocal)) = true
    · rw [if_pos hp]
      rw [clusterIPEndpointLoop_dests svc h cid full rest am st
        (fun e he => hfresh e (List.mem_cons_of_mem ep he)) hndrest]
      have hf : (fun e => !(svc.local' && (hasActiveEndpoints full && !e.isLocal))) ep
          = false := by simpa using hp
      simp only [List.filter_cons, hf, Bool.false_eq_true, if_false]
    · rw [if_neg hp]
      dsimp only
      rw [ipvsAddServer_envOK]
      dsimp only
      have hcon : st.dests.contains
          ((some h : Option IpvsSvc), (⟨ep.ip, ep.port, 1, false⟩ : Destination)) = false := by
        have := hfresh ep (List.mem_cons_self ep rest)
        revert this
        cases hq : st.dests.contains ((some h : Option IpvsSvc),
            (⟨ep.ip, ep.port, 1, false⟩ : Destination))
        · intro _; rfl
        · intro hcontra
          exact absurd (List.elem_iff.1 hq) hcontra
      rw [hcon]
      simp only [Bool.false_eq_true, if_false]
      rw [clusterIPEndpointLoop_dests svc h cid full rest _ _ ?hfr hndrest]
      case hfr =>
        intro e he hmem
        rcases List.mem_append.1 hmem with hm | hm
        · exact hfresh e (List.mem_cons_of_mem ep he) hm
        · have heq : (⟨e.ip, e.port, 1, false⟩ : Destination)
              = ⟨ep.ip, ep.port, 1, false⟩ := by
            have := List.mem_singleton.1 hm
            exact congrArg Prod.snd this
          exact hhead (heq ▸ List.mem_map_of_mem
            (fun e => (⟨e.ip, e.port, 1, false⟩ : Destination)) he)
      have hp' : (svc.local' && (hasActiveEndpoints full && !ep.isLocal)) = false := by
        cases hX : (svc.local' && (hasActiveEndpoints full && !ep.isLocal))
        · rfl
        · exact absurd hX hp
      have hf : (fun e => !(svc.local' && (hasActiveEndpoints full && !e.isLocal))) ep
          = true := by simp [hp']
      simp only [List.filter_cons, hf, if_true, List.map_cons, List.append_assoc,
        List.cons_append, List.nil_append]

theorem destsOf_of_pairs (h : IpvsSvc) :
    ∀ (ds : List Destination),
      ((ds.map (fun d => ((some h : Option IpvsSvc), d))).filter
          (fun p => p.1 == some h)).map (·.2) = ds
  | [] => rfl
  | d :: rest => by
    simp only [List.map_cons, List.filter_cons, beq_self_eq_true, if_true]
    rw [destsOf_of_pairs h rest]

theorem clusterPred_eq_localPolicy (svc : serviceInfo) (eps : List endpointsInfo)
    (e : endpointsInfo) :
    (!(svc.local' && (hasActiveEndpoints eps && !e.isLocal)))
      = localPolicyPred svc eps e := by
  unfold localPolicyPred
  cases hl : svc.local' <;> cases hA : hasActiveEndpoints eps <;> cases e.isLocal <;> simp

theorem nodup_mkDst_filter (eps : List endpointsInfo) (pc : endpointsInfo → Bool)
    (tun : Bool) (hkeys : (eps.map (fun e => (e.ip, e.port))).Nodup) :
    ((eps.filter pc).map (fun e => (⟨e.ip, e.port, 1, tun⟩ : Destination))).Nodup := by
  have hsub : List.Sublist ((eps.filter pc).map (fun e => (e.ip, e.port)))
      (eps.map (fun e => (e.ip, e.port))) :=
    (List.filter_sublist eps).map _
  have h2 : ((eps.filter pc).map (fun e => (e.ip, e.port))).Nodup := hkeys.sublist hsub
  have heq : (eps.filter pc).map (fun e => (e.ip, e.port))
      = ((eps.filter pc).map (fun e => (⟨e.ip, e.port, 1, tun⟩ : Destination))).map
          (fun d => (d.Address, d.Port)) := by
    rw [List.map_map]
    rfl
  rw [heq] at h2
  exact h2.of_map

theorem ipAddrAdd_envOK (st : St) (ip : String) :
    ipAddrAdd envOK st ip
      = (none, { st with dummyAddrs :=
          if st.dummyAddrs.contains ip then st.dummyAddrs
          else st.dummyAddrs ++ [ip] }) := rfl

theorem ipvsAddService_envOK (st : St) (vip : String) (protocol port : Nat) :
    ipvsAddService envOK st vip protocol port
      = (.ok ⟨some vip, protocol, port, 0⟩,
          { st with svcs :=
              if st.svcs.contains (⟨some vip, protocol, port, 0⟩ : IpvsSvc) then st.svcs
              else st.svcs ++ [⟨some vip, protocol, port, 0⟩] }) := rfl

theorem ipvsAddServer_fwMarkMap (env : Env) (st : St) (s : Option IpvsSvc)
    (d : Destination) :
    ((ipvsAddServer env st s d).2).fwMarkMap = st.fwMarkMap := by
  unfold ipvsAddServer
  split <;> rfl

theorem clusterIPEndpointLoop_fwMarkMap (env : Env) (svc : serviceInfo) (h : IpvsSvc)
    (cid : String) (full : List endpointsInfo) :
    ∀ (l : List endpointsInfo) (am : ActiveMap) (st : St),
      ((clusterIPEndpointLoop env svc h cid full l am st).2).fwMarkMap = st.fwMarkMap
  | [], _, _ => rfl
  | ep :: rest, am, st => by
    unfold clusterIPEndpointLoop
    split
    · exact clusterIPEndpointLoop_fwMarkMap env svc h cid full rest am st
    · rcases ha : ipvsAddServer env st (some h) ⟨ep.ip, ep.port, 1, false⟩ with ⟨e, st'⟩
      have hsv : st'.fwMarkMap = st.fwMarkMap := by
        have := ipvsAddServer_fwMarkMap env st (some h) ⟨ep.ip, ep.port, 1, false⟩
        rw [ha] at this
        exact this
      dsimp only
      rw [ha]
      cases e with
      | some _ =>
        dsimp only
        rw [clusterIPEndpointLoop_fwMarkMap env svc h cid full rest am st', hsv]
      | none =>
        dsimp only
        rw [clusterIPEndpointLoop_fwMarkMap env svc h cid full rest _ st', hsv]

theorem nodup_mkDst (eps : List endpointsInfo)
    (hkeys : (eps.map (fun e => (e.ip, e.port))).Nodup) :
    (eps.map (fun e => (⟨e.ip, e.port, 1, false⟩ : Destination))).Nodup := by
  have heq : eps.map (fun e => (e.ip, e.port))
      = (eps.map (fun e => (⟨e.ip, e.port, 1, false⟩ : Destination))).map
          (fun d => (d.Address, d.Port)) := by
    rw [List.map_map]
    rfl
  rw [heq] at hkeys
  exact hkeys.of_map

theorem pairs_filter_self (h : IpvsSvc) :
    ∀ (l : List endpointsInfo),
      ((l.map (fun e => ((some h : Option IpvsSvc),
          (⟨e.ip, e.port, 1, false⟩ : Destination)))).filter
            (fun p => p.1 == some h)).map (·.2)
        = l.map (fun e => (⟨e.ip, e.port, 1, false⟩ : Destination))
  | [] => rfl
  | e :: rest => by
    simp only [List.map_cons, List.filter_cons, beq_self_eq_true, if_true]
    rw [pairs_filter_self h rest]

theorem pairs_filter_other (h h' : IpvsSvc) (hne : ((some h' : Option IpvsSvc) == some h) = false) :
    ∀ (l : List endpointsInfo),
      (l.map (fun e => ((some h' : Option IpvsSvc),
          (⟨e.ip, e.port, 1, false⟩ : Destination)))).filter
            (fun p => p.1 == some h)
        = []
  | [] => rfl
  | e :: rest => by
    simp only [List.map_cons, List.filter_cons, hne, Bool.false_eq_true, if_false]
    exact pairs_filter_other h h' hne rest

theorem nodePred_eq_localPolicy (svc : serviceInfo) (eps : List endpointsInfo)
    (hact : svc.local' = true → hasActiveEndpoints eps = true) (e : endpointsInfo) :
    (!svc.local' || (svc.local' && e.isLocal)) = localPolicyPred svc eps e := by
  unfold localPolicyPred
  cases hl : svc.local'
  · simp
  · rw [hact hl]
    cases e.isLocal <;> simp

theorem extPred_eq_localPolicy (svc : serviceInfo) (eps : List endpointsInfo)
    (hact : svc.local' = true → hasActiveEndpoints eps = true) (e : endpointsInfo) :
    (!(svc.local' && !e.isLocal)) = localPolicyPred svc eps e := by
  unfold localPolicyPred
  cases hl : svc.local'
  · simp
  · rw [hact hl]
    cases e.isLocal <;> simp

theorem nodePortSlotLoop_fwMarkMap (env : Env) (svc : serviceInfo) (ep : endpointsInfo) :
    ∀ (slots : List (Option IpvsSvc × String)) (am : ActiveMap) (st : St),
      ((nodePortSlotLoop env svc ep slots am st).2).fwMarkMap = st.fwMarkMap
  | [], _, _ => rfl
  | (h, id) :: rest, am, st => by
    unfold nodePortSlotLoop
    dsimp only
    split
    · rcases ha : ipvsAddServer env st h ⟨ep.ip, ep.port, 1, false⟩ with ⟨e, st'⟩
      have hsv : st'.fwMarkMap = st.fwMarkMap := by
        have := ipvsAddServer_fwMarkMap env st h ⟨ep.ip, ep.port, 1, false⟩
        rw [ha] at this
        exact this
      cases e with
      | some _ =>
        dsimp only
        rw [nodePortSlotLoop_fwMarkMap env svc ep rest am st', hsv]
      | none =>
        dsimp only
        rw [nodePortSlotLoop_fwMarkMap env svc ep rest _ st', hsv]
    · exact nodePortSlotLoop_fwMarkMap env svc ep rest am st

theorem nodePortEndpointLoop_fwMarkMap (env : Env) (svc : serviceInfo)
    (slots : List (Option IpvsSvc × String)) :
    ∀ (l : List endpointsInfo) (am : ActiveMap) (st : St),
      ((nodePortEndpointLoop env svc slots l am st).2).fwMarkMap = st.fwMarkMap
  | [], _, _ => rfl
  | ep :: rest, am, st => by
    rw [nodePortEndpointLoop]
    try dsimp only
    rw [nodePortEndpointLoop_fwMarkMap env svc slots rest _ _,
      nodePortSlotLoop_fwMarkMap env svc ep slots am st]

theorem nodePortEndpointLoop_single_dests (svc : serviceInfo) (hN : IpvsSvc)
    (nid : String) :
    ∀ (l : List endpointsInfo) (am : ActiveMap) (st : St),
      (∀ e ∈ l, ((some hN : Option IpvsSvc), (⟨e.ip, e.port, 1, false⟩ : Destination))
        ∉ st.dests) →
      ((l.map (fun e => (⟨e.ip, e.port, 1, false⟩ : Destination))).Nodup) →
      (nodePortEndpointLoop envOK svc [(some hN, nid)] l am st).2.dests
        = st.dests
          ++ (l.filter (fun e => !svc.local' || (svc.local' && e.isLocal))).map
              (fun e => ((some hN : Option IpvsSvc), (⟨e.ip, e.port, 1, false⟩ : Destination)))
  | [], am, st, _, _ => by rw [nodePortEndpointLoop]; simp
  | ep :: rest, am, st, hfresh, hnd => by
    rw [nodePortEndpointLoop]
    try dsimp only
    rw [nodePortSlotLoop]
    try dsimp only
    have hndrest : ((rest.map (fun e => (⟨e.ip, e.port, 1, false⟩ : Destination))).Nodup) :=
      (List.nodup_cons.1 hnd).2
    have hhead : (⟨ep.ip, ep.port, 1, false⟩ : Destination)
        ∉ rest.map (fun e => (⟨e.ip, e.port, 1, false⟩ : Destination)) :=
      (List.nodup_cons.1 hnd).1
    by_cases hq : (!svc.local' || (svc.local' && ep.isLocal)) = true
    · rw [if_pos hq]
      rw [ipvsAddServer_envOK]
      dsimp only
      have hcon : st.dests.contains
          ((some hN : Option IpvsSvc), (⟨ep.ip, ep.port, 1, false⟩ : Destination)) = false := by
        have hm := hfresh ep (List.mem_cons_self ep rest)
        revert hm
        cases hq' : st.dests.contains ((some hN : Option IpvsSvc),
            (⟨ep.ip, ep.port, 1, false⟩ : Destination))
        · intro _; rfl
        · intro hcontra
          exact absurd (List.elem_iff.1 hq') hcontra
      rw [hcon]
      simp only [Bool.false_eq_true, if_false]
      rw [nodePortSlotLoop]
      dsimp only
      rw [nodePortEndpointLoop_single_dests svc hN nid rest _ _ ?fr hndrest]
      case fr =>
        intro e he hmem
        rcases List.mem_append.1 hmem with hm | hm
        · exact hfresh e (List.mem_cons_of_mem ep he) hm
        · have heq : (⟨e.ip, e.port, 1, false⟩ : Destination)
              = ⟨ep.ip, ep.port, 1, false⟩ := by
            have := List.mem_singleton.1 hm
            exact congrArg Prod.snd this
          exact hhead (heq ▸ List.mem_map_of_mem
            (fun e => (⟨e.ip, e.port, 1, false⟩ : Destination)) he)
      have hf : (fun e => !svc.local' || (svc.local' && e.isLocal)) ep = true := hq
      simp only [List.filter_cons, hf, if_true, List.map_cons, List.append_assoc,
        List.cons_append, List.nil_append]
    · rw [if_neg hq]
      rw [nodePortSlotLoop]
      dsimp only
      rw [nodePortEndpointLoop_single_dests svc hN nid rest _ _
        (fun e he => hfresh e (List.mem_cons_of_mem ep he)) hndrest]
      have hp' : (!svc.local' || (svc.local' && ep.isLocal)) = false := by
        cases hX : (!svc.local' || (svc.local' && ep.isLocal))
        · rfl
        · exact absurd hX hq
      have hf : (fun e => !svc.local' || (svc.local' && e.isLocal)) ep = false := hp'
      simp only [List.filter_cons, hf, Bool.false_eq_true, if_false]

theorem extIPEndpointLoop_err (svc : serviceInfo) (eip : String) (hE : IpvsSvc) :
    ∀ (l : List endpointsInfo) (st : St),
      (extIPEndpointLoop envOK svc eip hE l st).1 = none
  | [], _ => rfl
  | ep :: rest, st => by
    rw [extIPEndpointLoop]
    by_cases hp : (svc.local' && !ep.isLocal) = true
    · rw [if_pos hp]
      exact extIPEndpointLoop_err svc eip hE rest st
    · rw [if_neg hp]
      dsimp only
      rw [ipvsAddServer_envOK]
      dsimp only
      exact extIPEndpointLoop_err svc eip hE rest _

theorem extIPEndpointLoop_dests (svc : serviceInfo) (eip : String) (hE : IpvsSvc) :
    ∀ (l : List endpointsInfo) (st : St),
      (∀ e ∈ l, ((some hE : Option IpvsSvc), (⟨e.ip, e.port, 1, false⟩ : Destination))
        ∉ st.dests) →
      ((l.map (fun e => (⟨e.ip, e.port, 1, false⟩ : Destination))).Nodup) →
      (extIPEndpointLoop envOK svc eip hE l st).2.dests
        = st.dests
          ++ (l.filter (fun e => !(svc.local' && !e.isLocal))).map
              (fun e => ((some hE : Option IpvsSvc), (⟨e.ip, e.port, 1, false⟩ : Destination)))
  | [], st, _, _ => by rw [extIPEndpointLoop]; simp
  | ep :: rest, st, hfresh, hnd => by
    rw [extIPEndpointLoop]
    have hndrest : ((rest.map (fun e => (⟨e.ip, e.port, 1, false⟩ : Destination))).Nodup) :=
      (List.nodup_cons.1 hnd).2
    have hhead : (⟨ep.ip, ep.port, 1, false⟩ : Destination)
        ∉ rest.map (fun e => (⟨e.ip, e.port, 1, false⟩ : Destination)) :=
      (List.nodup_cons.1 hnd).1
    by_cases hp : (svc.local' && !ep.isLocal) = true
    · rw [if_pos hp]
      rw [extIPEndpointLoop_dests svc eip hE rest st
        (fun e he => hfresh e (List.mem_cons_of_mem ep he)) hndrest]
      have hf : (fun e => !(svc.local' && !e.isLocal)) ep = false := by simp [hp]
      simp only [List.filter_cons, hf, Bool.false_eq_true, if_false]
    · rw [if_neg hp]
      dsimp only
      rw [ipvsAddServer_envOK]
      dsimp only
      have hcon : st.dests.contains
          ((some hE : Option IpvsSvc), (⟨ep.ip, ep.port, 1, false⟩ : Destination)) = false := by
        have hm := hfresh ep (List.mem_cons_self ep rest)
        revert hm
        cases hq' : st.dests.contains ((some hE : Option IpvsSvc),
            (⟨ep.ip, ep.port, 1, false⟩ : Destination))
        · intro _; rfl
        · intro hcontra
          exact absurd (List.elem_iff.1 hq') hcontra
      rw [hcon]
      simp only [Bool.false_eq_true, if_false]
      rw [extIPEndpointLoop_dests svc eip hE rest _ ?fr hndrest]
      case fr =>
        intro e he hmem
        rcases List.mem_append.1 hmem with hm | hm
        · exact hfresh e (List.mem_cons_of_mem ep he) hm
        · have heq : (⟨e.ip, e.port, 1, false⟩ : Destination)
              = ⟨ep.ip, ep.port, 1, false⟩ := by
            have := List.mem_singleton.1 hm
            exact congrArg Prod.snd this
          exact hhead (heq ▸ List.mem_map_of_mem
            (fun e => (⟨e.ip, e.port, 1, false⟩ : Destination)) he)
      have hp' : (svc.local' && !ep.isLocal) = false := by
        cases hX : (svc.local' && !ep.isLocal)
        · rfl
        · exact absurd hX hp
      have hf : (fun e => !(svc.local' && !e.isLocal)) ep = true := by simp [hp']
      simp only [List.filter_cons, hf, if_true, List.map_cons, List.append_assoc,
        List.cons_append, List.nil_append]

theorem setupClusterIPServices_single_envOK (k : String) (svc : serviceInfo)
    (eps : List endpointsInfo) (am : ActiveMap) (st : St)
    (hfresh : ∀ e ∈ eps, ((some (⟨some svc.clusterIP,
          convertSvcProtoToSysCallProto svc.protocol, svc.port, 0⟩ : IpvsSvc) :
        Option IpvsSvc), (⟨e.ip, e.port, 1, false⟩ : Destination)) ∉ st.dests)
    (hnd : (eps.map (fun e => (⟨e.ip, e.port, 1, false⟩ : Destination))).Nodup) :
    (setupClusterIPServices envOK [(k, svc)] [(k, eps)] am st).2.2.dests
      = st.dests
        ++ (eps.filter (fun e =>
              !(svc.local' && (hasActiveEndpoints eps && !e.isLocal)))).map
            (fun e => ((some (⟨some svc.clusterIP,
                convertSvcProtoToSysCallProto svc.protocol, svc.port, 0⟩ : IpvsSvc) :
              Option IpvsSvc), (⟨e.ip, e.port, 1, false⟩ : Destination)))
    ∧ (setupClusterIPServices envOK [(k, svc)] [(k, eps)] am st).2.2.fwMarkMap
      = st.fwMarkMap
    ∧ (setupClusterIPServices envOK [(k, svc)] [(k, eps)] am st).2.2.svcs
      = (if st.svcs.contains (⟨some svc.clusterIP,
            convertSvcProtoToSysCallProto svc.protocol, svc.port, 0⟩ : IpvsSvc)
          then st.svcs
          else st.svcs ++ [⟨some svc.clusterIP,
            convertSvcProtoToSysCallProto svc.protocol, svc.port, 0⟩]) := by
  have hsetup : setupClusterIPServices envOK [(k, svc)] [(k, eps)] am st
      = clusterIPLoop envOK [(k, eps)] [(k, svc)] am st := rfl
  rw [hsetup, clusterIPLoop_cons_ok envOK [(k, eps)] k svc [] am st rfl rfl rfl]
  rw [show (([(k, eps)].lookup k)).getD [] = eps from by simp [List.lookup]]
  rw [clusterIPLoop]
  refine ⟨?_, ?_, ?_⟩
  · exact clusterIPEndpointLoop_dests svc _ _ eps eps _ _ hfresh hnd
  · exact clusterIPEndpointLoop_fwMarkMap envOK svc _ _ eps eps _ _
  · exact clusterIPEndpointLoop_svcs envOK svc _ _ eps eps _ _

theorem nodePortSvcLoop_cons_ok (nsc : Nsc) (em : List (String × List endpointsInfo))
    (k : String) (svc : serviceInfo) (endpoints : List endpointsInfo)
    (rest : List (String × serviceInfo)) (am : ActiveMap) (st : St)
    (hlook : (em.lookup k).getD [] = endpoints)
    (hnp : (svc.nodePort == 0) = false)
    (hbind : nsc.nodeportBindOnAllIP = false)
    (hskip : (svc.local' && !hasActiveEndpoints endpoints) = false) :
    nodePortSvcLoop envOK nsc em ((k, svc) :: rest) am st
      = nodePortSvcLoop envOK nsc em rest
          (nodePortEndpointLoop envOK svc
            [((some (⟨some nsc.nodeIP, convertSvcProtoToSysCallProto svc.protocol,
                  svc.nodePort, 0⟩ : IpvsSvc) : Option IpvsSvc),
              generateIPPortID nsc.nodeIP svc.protocol (toString svc.nodePort))]
            endpoints
            (amSet am (generateIPPortID nsc.nodeIP svc.protocol (toString svc.nodePort)) [])
            { st with svcs :=
                if st.svcs.contains (⟨some nsc.nodeIP,
                    convertSvcProtoToSysCallProto svc.protocol, svc.nodePort, 0⟩ : IpvsSvc)
                  then st.svcs
                else st.svcs ++ [⟨some nsc.nodeIP,
                    convertSvcProtoToSysCallProto svc.protocol, svc.nodePort, 0⟩] }).1
          (nodePortEndpointLoop envOK svc
            [((some (⟨some nsc.nodeIP, convertSvcProtoToSysCallProto svc.protocol,
                  svc.nodePort, 0⟩ : IpvsSvc) : Option IpvsSvc),
              generateIPPortID nsc.nodeIP svc.protocol (toString svc.nodePort))]
            endpoints
            (amSet am (generateIPPortID nsc.nodeIP svc.protocol (toString svc.nodePort)) [])
            { st with svcs :=
                if st.svcs.contains (⟨some nsc.nodeIP,
                    convertSvcProtoToSysCallProto svc.protocol, svc.nodePort, 0⟩ : IpvsSvc)
                  then st.svcs
                else st.svcs ++ [⟨some nsc.nodeIP,
                    convertSvcProtoToSysCallProto svc.protocol, svc.nodePort, 0⟩] }).2 := by
  rw [nodePortSvcLoop]
  try dsimp only
  rw [hnp]
  simp only [Bool.false_eq_true, if_false]
  rw [hlook, hskip]
  simp only [Bool.false_eq_true, if_false]
  rw [hbind]
  simp only [Bool.false_eq_true, if_false]
  rw [ipvsAddService_envOK]
  try dsimp only

theorem setupNodePortServices_single_envOK (nsc : Nsc) (k : String) (svc : serviceInfo)
    (eps : List endpointsInfo) (am : ActiveMap) (st : St)
    (hnp : (svc.nodePort == 0) = false)
    (hbind : nsc.nodeportBindOnAllIP = false)
    (hskip : (svc.local' && !hasActiveEndpoints eps) = false)
    (hfresh : ∀ e ∈ eps, ((some (⟨some nsc.nodeIP, convertSvcProtoToSysCallProto
          svc.protocol, svc.nodePort, 0⟩ : IpvsSvc) : Option IpvsSvc),
        (⟨e.ip, e.port, 1, false⟩ : Destination)) ∉ st.dests)
    (hnd : (eps.map (fun e => (⟨e.ip, e.port, 1, false⟩ : Destination))).Nodup) :
    (setupNodePortServices envOK nsc [(k, svc)] [(k, eps)] am st).2.2.dests
      = st.dests ++ (eps.filter (fun e => !svc.local' || (svc.local' && e.isLocal))).map
          (fun e => ((some (⟨some nsc.nodeIP, convertSvcProtoToSysCallProto
              svc.protocol, svc.nodePort, 0⟩ : IpvsSvc) : Option IpvsSvc),
            (⟨e.ip, e.port, 1, false⟩ : Destination)))
    ∧ (setupNodePortServices envOK nsc [(k, svc)] [(k, eps)] am st).2.2.fwMarkMap
      = st.fwMarkMap := by
  have hsetup : setupNodePortServices envOK nsc [(k, svc)] [(k, eps)] am st
      = nodePortSvcLoop envOK nsc [(k, eps)] [(k, svc)] am st := rfl
  rw [hsetup,
    nodePortSvcLoop_cons_ok nsc [(k, eps)] k svc eps [] am st
      (by simp [List.lookup]) hnp hbind hskip,
    nodePortSvcLoop]
  constructor
  · exact nodePortEndpointLoop_single_dests svc _ _ eps _ _ hfresh hnd
  · exact nodePortEndpointLoop_fwMarkMap envOK svc _ eps _ _

theorem setupExternalIPForServiceRest_envOK (nsc : Nsc) (svc : serviceInfo)
    (eip : String) (eps : List endpointsInfo) (t : St)
    (hfw : t.fwMarkMap = [])
    (hfresh : ∀ e ∈ eps, ((some (⟨some eip, convertSvcProtoToSysCallProto svc.protocol,
          svc.port, 0⟩ : IpvsSvc) : Option IpvsSvc),
        (⟨e.ip, e.port, 1, false⟩ : Destination)) ∉ t.dests)
    (hnd : (eps.map (fun e => (⟨e.ip, e.port, 1, false⟩ : Destination))).Nodup) :
    (setupExternalIPForServiceRest envOK nsc svc eip eps t).1 = none
    ∧ (setupExternalIPForServiceRest envOK nsc svc eip eps t).2.dests
      = t.dests ++ (eps.filter (fun e => !(svc.local' && !e.isLocal))).map
          (fun e => ((some (⟨some eip, convertSvcProtoToSysCallProto svc.protocol,
              svc.port, 0⟩ : IpvsSvc) : Option IpvsSvc),
            (⟨e.ip, e.port, 1, false⟩ : Destination))) := by
  unfold setupExternalIPForServiceRest
  rw [ipvsAddService_envOK]
  try dsimp only
  rw [show lookupFWMarkByService
      { t with svcs :=
          if t.svcs.contains (⟨some eip, convertSvcProtoToSysCallProto svc.protocol,
              svc.port, 0⟩ : IpvsSvc) then t.svcs
          else t.svcs ++ [⟨some eip, convertSvcProtoToSysCallProto svc.protocol,
              svc.port, 0⟩] }
      eip svc.protocol (toString svc.port) = 0 from by
    unfold lookupFWMarkByService
    try dsimp only
    rw [hfw]
    rfl]
  simp only [beq_self_eq_true, if_true]
  constructor
  · exact extIPEndpointLoop_err svc eip _ eps _
  · exact extIPEndpointLoop_dests svc eip _ eps _ hfresh hnd

theorem setupExternalIPForService_envOK (nsc : Nsc) (svc : serviceInfo) (eip : String)
    (eps : List endpointsInfo) (st : St)
    (hfw : st.fwMarkMap = [])
    (hfresh : ∀ e ∈ eps, ((some (⟨some eip, convertSvcProtoToSysCallProto svc.protocol,
          svc.port, 0⟩ : IpvsSvc) : Option IpvsSvc),
        (⟨e.ip, e.port, 1, false⟩ : Destination)) ∉ st.dests)
    (hnd : (eps.map (fun e => (⟨e.ip, e.port, 1, false⟩ : Destination))).Nodup) :
    (setupExternalIPForService envOK nsc svc eip eps st).1 = none
    ∧ (setupExternalIPForService envOK nsc svc eip eps st).2.dests
      = st.dests ++ (eps.filter (fun e => !(svc.local' && !e.isLocal))).map
          (fun e => ((some (⟨some eip, convertSvcProtoToSysCallProto svc.protocol,
              svc.port, 0⟩ : IpvsSvc) : Option IpvsSvc),
            (⟨e.ip, e.port, 1, false⟩ : Destination))) := by
  have hstep : setupExternalIPForService envOK nsc svc eip eps st
      = setupExternalIPForServiceRest envOK nsc svc eip eps
          { st with dummyAddrs :=
              if st.dummyAddrs.contains eip then st.dummyAddrs
              else st.dummyAddrs ++ [eip] } := rfl
  rw [hstep]
  exact ⟨(setupExternalIPForServiceRest_envOK nsc svc eip eps
      { st with dummyAddrs :=
          if st.dummyAddrs.contains eip then st.dummyAddrs
          else st.dummyAddrs ++ [eip] } hfw hfresh hnd).1,
    (setupExternalIPForServiceRest_envOK nsc svc eip eps
      { st with dummyAddrs :=
          if st.dummyAddrs.contains eip then st.dummyAddrs
          else st.dummyAddrs ++ [eip] } hfw hfresh hnd).2⟩

theorem extIPLoop_single_ok (nsc : Nsc) (svc : serviceInfo) (eip : String)
    (eps : List endpointsInfo) (am : ActiveMap) (st : St)
    (hdsr : svc.directServerReturn = false)
    (hfw : st.fwMarkMap = [])
    (hfresh : ∀ e ∈ eps, ((some (⟨some eip, convertSvcProtoToSysCallProto svc.protocol,
          svc.port, 0⟩ : IpvsSvc) : Option IpvsSvc),
        (⟨e.ip, e.port, 1, false⟩ : Destination)) ∉ st.dests)
    (hnd : (eps.map (fun e => (⟨e.ip, e.port, 1, false⟩ : Destination))).Nodup) :
    (extIPLoop envOK nsc svc eps [eip] am st).1 = none
    ∧ (extIPLoop envOK nsc svc eps [eip] am st).2.2.dests
      = st.dests ++ (eps.filter (fun e => !(svc.local' && !e.isLocal))).map
          (fun e => ((some (⟨some eip, convertSvcProtoToSysCallProto svc.protocol,
              svc.port, 0⟩ : IpvsSvc) : Option IpvsSvc),
            (⟨e.ip, e.port, 1, false⟩ : Destination))) := by
  obtain ⟨h1, h2⟩ := setupExternalIPForService_envOK nsc svc eip eps st hfw hfresh hnd
  rw [extIPLoop]
  rw [hdsr]
  simp only [Bool.false_and, Bool.false_eq_true, if_false]
  rcases hs : setupExternalIPForService envOK nsc svc eip eps st with ⟨err, st'⟩
  rw [hs] at h1 h2
  dsimp only at h1 h2
  subst h1
  try rw [hs]
  try dsimp only
  rw [extIPLoop]
  exact ⟨rfl, h2⟩

theorem setupExternalIPServices_single_envOK (nsc : Nsc) (k eip : String)
    (svc : serviceInfo) (eps : List endpointsInfo) (am : ActiveMap) (st : St)
    (hext : svc.externalIPs = [eip])
    (hlb : svc.loadBalancerIPs = [])
    (hdsr : svc.directServerReturn = false)
    (hskip : (svc.local' && !hasActiveEndpoints eps) = false)
    (hfw : st.fwMarkMap = [])
    (hfresh : ∀ e ∈ eps, ((some (⟨some eip, convertSvcProtoToSysCallProto svc.protocol,
          svc.port, 0⟩ : IpvsSvc) : Option IpvsSvc),
        (⟨e.ip, e.port, 1, false⟩ : Destination)) ∉ st.dests)
    (hnd : (eps.map (fun e => (⟨e.ip, e.port, 1, false⟩ : Destination))).Nodup) :
    (setupExternalIPServices envOK nsc [(k, svc)] [(k, eps)] am st).2.2.dests
      = st.dests ++ (eps.filter (fun e => !(svc.local' && !e.isLocal))).map
          (fun e => ((some (⟨some eip, convertSvcProtoToSysCallProto svc.protocol,
              svc.port, 0⟩ : IpvsSvc) : Option IpvsSvc),
            (⟨e.ip, e.port, 1, false⟩ : Destination))) := by
  obtain ⟨h1, h2⟩ := extIPLoop_single_ok nsc svc eip eps am st hdsr hfw hfresh hnd
  have hsetup : setupExternalIPServices envOK nsc [(k, svc)] [(k, eps)] am st
      = extSvcLoop envOK nsc [(k, eps)] [(k, svc)] am st := rfl
  rw [hsetup, extSvcLoop]
  try dsimp only
  rw [show (([(k, eps)].lookup k)).getD [] = eps from by simp [List.lookup]]
  rw [hext, hlb, ite_self]
  rw [show sortedUnion (([eip] : List String) ++ []) = [eip] from rfl]
  rw [show ((([eip] : List String)).length == 0) = false from rfl]
  simp only [Bool.false_eq_true, if_false]
  rw [hskip]
  simp only [Bool.false_eq_true, if_false]
  rcases hL : extIPLoop envOK nsc svc eps [eip] am st with ⟨err, amX, stX⟩
  rw [hL] at h1 h2
  dsimp only at h1 h2
  subst h1
  try rw [hL]
  try dsimp only
  rw [extSvcLoop]
  exact h2

/-- Node-port pass, head service skipped by the Local-policy guard
(source lines 165-167): a Local service with no active endpoint is passed
over entirely. -/
theorem nodePortSvcLoop_cons_skipLocal (nsc : Nsc)
    (em : List (String × List endpointsInfo)) (k : String) (svc : serviceInfo)
    (endpoints : List endpointsInfo) (rest : List (String × serviceInfo))
    (am : ActiveMap) (st : St)
    (hlook : (em.lookup k).getD [] = endpoints)
    (hnp : (svc.nodePort == 0) = false)
    (hskipT : (svc.local' && !hasActiveEndpoints endpoints) = true) :
    nodePortSvcLoop envOK nsc em ((k, svc) :: rest) am st
      = nodePortSvcLoop envOK nsc em rest am st := by
  rw [nodePortSvcLoop]
  try dsimp only
  rw [hnp]
  simp only [Bool.false_eq_true, if_false]
  rw [hlook, hskipT]
  simp only [if_true]

theorem setupNodePortServices_single_skip (nsc : Nsc) (k : String) (svc : serviceInfo)
    (eps : List endpointsInfo) (am : ActiveMap) (st : St)
    (hnp : (svc.nodePort == 0) = false)
    (hskipT : (svc.local' && !hasActiveEndpoints eps) = true) :
    setupNodePortServices envOK nsc [(k, svc)] [(k, eps)] am st = (none, am, st) := by
  have hsetup : setupNodePortServices envOK nsc [(k, svc)] [(k, eps)] am st
      = nodePortSvcLoop envOK nsc [(k, eps)] [(k, svc)] am st := rfl
  rw [hsetup,
    nodePortSvcLoop_cons_skipLocal nsc [(k, eps)] k svc eps [] am st
      (by simp [List.lookup]) hnp hskipT,
    nodePortSvcLoop]

/-- External-IP pass, head service skipped by the Local-policy guard
(source lines 257-259). -/
theorem extSvcLoop_cons_skipLocal (nsc : Nsc)
    (em : List (String × List endpointsInfo)) (k eip : String) (svc : serviceInfo)
    (endpoints : List endpointsInfo) (rest : List (String × serviceInfo))
    (am : ActiveMap) (st : St)
    (hlook : (em.lookup k).getD [] = endpoints)
    (hext : svc.externalIPs = [eip])
    (hlb : svc.loadBalancerIPs = [])
    (hskipT : (svc.local' && !hasActiveEndpoints endpoints) = true) :
    extSvcLoop envOK nsc em ((k, svc) :: rest) am st
      = extSvcLoop envOK nsc em rest am st := by
  rw [extSvcLoop]
  try dsimp only
  rw [hlook]
  rw [hext, hlb, ite_self]
  rw [show sortedUnion (([eip] : List String) ++ []) = [eip] from rfl]
  rw [show ((([eip] : List String)).length == 0) = false from rfl]
  simp only [Bool.false_eq_true, if_false]
  rw [hskipT]
  simp only [if_true]

theorem setupExternalIPServices_single_skip (nsc : Nsc) (k eip : String)
    (svc : serviceInfo) (eps : List endpointsInfo) (am : ActiveMap) (st : St)
    (hext : svc.externalIPs = [eip])
    (hlb : svc.loadBalancerIPs = [])
    (hskipT : (svc.local' && !hasActiveEndpoints eps) = true) :
    setupExternalIPServices envOK nsc [(k, svc)] [(k, eps)] am st = (none, am, st) := by
  have hsetup : setupExternalIPServices envOK nsc [(k, svc)] [(k, eps)] am st
      = extSvcLoop envOK nsc [(k, eps)] [(k, svc)] am st := rfl
  rw [hsetup,
    extSvcLoop_cons_skipLocal nsc [(k, eps)] k eip svc eps [] am st
      (by simp [List.lookup]) hext hlb hskipT,
    extSvcLoop]

/-- C4: for a desired service with endpoint list `eps`, every IPVS virtual
service installed by the reconcile passes receives as real servers exactly
the endpoints satisfying the local-policy predicate `!svc.local ||
endpoint.isLocal || (svc.local && no local endpoint exists for svc)`.
After the cluster-IP, node-port and external-IP passes run in the source's
order from the empty state: the cluster virtual service's destination set
always equals the filtered endpoint list (in particular, a Local service
with no local endpoint gets every endpoint, the predicate's third
disjunct); when the service is not a Local service without active
endpoints, the node-port and external-IP virtual services get the same
filtered set; and when it is, those two passes install no virtual service
at all, so the claim holds for every service that was installed. -/
theorem C4_real_server_sets_match_local_policy
    (nsc : Nsc) (k eip : String) (svc : serviceInfo) (eps : List endpointsInfo)
    (hkeys : (eps.map (fun e => (e.ip, e.port))).Nodup)
    (hnp : (svc.nodePort == 0) = false)
    (hbind : nsc.nodeportBindOnAllIP = false)
    (hext : svc.externalIPs = [eip])
    (hlb : svc.loadBalancerIPs = [])
    (hdsr : svc.directServerReturn = false)
    (hCN : svc.clusterIP ≠ nsc.nodeIP)
    (hCE : svc.clusterIP ≠ eip)
    (hNE : nsc.nodeIP ≠ eip) :
    destsOf (threePassState nsc [(k, svc)] [(k, eps)])
        ⟨some svc.clusterIP, convertSvcProtoToSysCallProto svc.protocol, svc.port, 0⟩
      = (eps.filter (localPolicyPred svc eps)).map
          (fun e => (⟨e.ip, e.port, 1, false⟩ : Destination))
    ∧ ((svc.local' && !hasActiveEndpoints eps) = false →
        destsOf (threePassState nsc [(k, svc)] [(k, eps)])
            ⟨some nsc.nodeIP, convertSvcProtoToSysCallProto svc.protocol, svc.nodePort, 0⟩
          = (eps.filter (localPolicyPred svc eps)).map
              (fun e => (⟨e.ip, e.port, 1, false⟩ : Destination))
        ∧ destsOf (threePassState nsc [(k, svc)] [(k, eps)])
            ⟨some eip, convertSvcProtoToSysCallProto svc.protocol, svc.port, 0⟩
          = (eps.filter (localPolicyPred svc eps)).map
              (fun e => (⟨e.ip, e.port, 1, false⟩ : Destination)))
    ∧ ((svc.local' && !hasActiveEndpoints eps) = true →
        (⟨some nsc.nodeIP, convertSvcProtoToSysCallProto svc.protocol,
            svc.nodePort, 0⟩ : IpvsSvc)
          ∉ (threePassState nsc [(k, svc)] [(k, eps)]).svcs
        ∧ (⟨some eip, convertSvcProtoToSysCallProto svc.protocol,
            svc.port, 0⟩ : IpvsSvc)
          ∉ (threePassState nsc [(k, svc)] [(k, eps)]).svcs
        ∧ destsOf (threePassState nsc [(k, svc)] [(k, eps)])
            ⟨some nsc.nodeIP, convertSvcProtoToSysCallProto svc.protocol,
              svc.nodePort, 0⟩ = []
        ∧ destsOf (threePassState nsc [(k, svc)] [(k, eps)])
            ⟨some eip, convertSvcProtoToSysCallProto svc.protocol, svc.port, 0⟩
          = []) := by
  have hndmk := nodup_mkDst eps hkeys
  have bNC : ((some (⟨some nsc.nodeIP, convertSvcProtoToSysCallProto svc.protocol,
      svc.nodePort, 0⟩ : IpvsSvc) : Option IpvsSvc)
      == some ⟨some svc.clusterIP, convertSvcProtoToSysCallProto svc.protocol,
        svc.port, 0⟩) = false :=
    beq_eq_false_iff_ne.2 (fun hc => hCN
      (Option.some.inj (congrArg IpvsSvc.Address (Option.some.inj hc))).symm)
  have bEC : ((some (⟨some eip, convertSvcProtoToSysCallProto svc.protocol,
      svc.port, 0⟩ : IpvsSvc) : Option IpvsSvc)
      == some ⟨some svc.clusterIP, convertSvcProtoToSysCallProto svc.protocol,
        svc.port, 0⟩) = false :=
    beq_eq_false_iff_ne.2 (fun hc => hCE
      (Option.some.inj (congrArg IpvsSvc.Address (Option.some.inj hc))).symm)
  have bCN : ((some (⟨some svc.clusterIP, convertSvcProtoToSysCallProto svc.protocol,
      svc.port, 0⟩ : IpvsSvc) : Option IpvsSvc)
      == some ⟨some nsc.nodeIP, convertSvcProtoToSysCallProto svc.protocol,
        svc.nodePort, 0⟩) = false :=
    beq_eq_false_iff_ne.2 (fun hc => hCN
      (Option.some.inj (congrArg IpvsSvc.Address (Option.some.inj hc))))
  have bEN : ((some (⟨some eip, convertSvcProtoToSysCallProto svc.protocol,
      svc.port, 0⟩ : IpvsSvc) : Option IpvsSvc)
      == some ⟨some nsc.nodeIP, convertSvcProtoToSysCallProto svc.protocol,
        svc.nodePort, 0⟩) = false :=
    beq_eq_false_iff_ne.2 (fun hc => hNE
      (Option.some.inj (congrArg IpvsSvc.Address (Option.some.inj hc))).symm)
  have bCE : ((some (⟨some svc.clusterIP, convertSvcProtoToSysCallProto svc.protocol,
      svc.port, 0⟩ : IpvsSvc) : Option IpvsSvc)
      == some ⟨some eip, convertSvcProtoToSysCallProto svc.protocol,
        svc.port, 0⟩) = false :=
    beq_eq_false_iff_ne.2 (fun hc => hCE
      (Option.some.inj (congrArg IpvsSvc.Address (Option.some.inj hc))))
  have bNE : ((some (⟨some nsc.nodeIP, convertSvcProtoToSysCallProto svc.protocol,
      svc.nodePort, 0⟩ : IpvsSvc) : Option IpvsSvc)
      == some ⟨some eip, convertSvcProtoToSysCallProto svc.protocol,
        svc.port, 0⟩) = false :=
    beq_eq_false_iff_ne.2 (fun hc => hNE
      (Option.some.inj (congrArg IpvsSvc.Address (Option.some.inj hc))))
  obtain ⟨p12, p13, p14⟩ := setupClusterIPServices_single_envOK k svc eps [] st0
    (fun e _ hmem => absurd hmem (List.not_mem_nil _)) hndmk
  rcases hr1 : setupClusterIPServices envOK [(k, svc)] [(k, eps)] [] st0
    with ⟨e1, am1, st1⟩
  rw [hr1] at p12 p13 p14
  dsimp only at p12 p13 p14
  have hd1 := p12.trans (List.nil_append _)
  have hfw1 : st1.fwMarkMap = [] := p13.trans rfl
  have hsv1 : st1.svcs = [⟨some svc.clusterIP,
      convertSvcProtoToSysCallProto svc.protocol, svc.port, 0⟩] := p14.trans rfl
  cases hskc : svc.local' && !hasActiveEndpoints eps with
  | false =>
    have hact : svc.local' = true → hasActiveEndpoints eps = true := by
      intro hl
      rw [hl] at hskc
      cases hA : hasActiveEndpoints eps
      · rw [hA] at hskc
        exact absurd hskc (by decide)
      · rfl
    have hfr2 : ∀ e ∈ eps, ((some (⟨some nsc.nodeIP, convertSvcProtoToSysCallProto
          svc.protocol, svc.nodePort, 0⟩ : IpvsSvc) : Option IpvsSvc),
        (⟨e.ip, e.port, 1, false⟩ : Destination)) ∉ st1.dests := by
      intro e he hmem
      rw [hd1] at hmem
      obtain ⟨a, ha, haeq⟩ := List.mem_map.1 hmem
      exact hCN (Option.some.inj (congrArg IpvsSvc.Address
        (Option.some.inj (congrArg Prod.fst haeq))))
    obtain ⟨p22, p23⟩ := setupNodePortServices_single_envOK nsc k svc eps am1 st1
      hnp hbind hskc hfr2 hndmk
    rcases hr2 : setupNodePortServices envOK nsc [(k, svc)] [(k, eps)] am1 st1
      with ⟨e2, am2, st2⟩
    rw [hr2] at p22 p23
    dsimp only at p22 p23
    have hfw2 : st2.fwMarkMap = [] := p23.trans hfw1
    have hfr3 : ∀ e ∈ eps, ((some (⟨some eip, convertSvcProtoToSysCallProto
          svc.protocol, svc.port, 0⟩ : IpvsSvc) : Option IpvsSvc),
        (⟨e.ip, e.port, 1, false⟩ : Destination)) ∉ st2.dests := by
      intro e he hmem
      rw [p22, hd1] at hmem
      rcases List.mem_append.1 hmem with hm | hm
      · obtain ⟨a, ha, haeq⟩ := List.mem_map.1 hm
        exact hCE (Option.some.inj (congrArg IpvsSvc.Address
          (Option.some.inj (congrArg Prod.fst haeq))))
      · obtain ⟨a, ha, haeq⟩ := List.mem_map.1 hm
        exact hNE (Option.some.inj (congrArg IpvsSvc.Address
          (Option.some.inj (congrArg Prod.fst haeq))))
    have p32 := setupExternalIPServices_single_envOK nsc k eip svc eps am2 st2
      hext hlb hdsr hskc hfw2 hfr3 hndmk
    rcases hr3 : setupExternalIPServices envOK nsc [(k, svc)] [(k, eps)] am2 st2
      with ⟨e3, am3, st3⟩
    rw [hr3] at p32
    dsimp only at p32
    unfold threePassState
    try dsimp only
    rw [hr1]
    try dsimp only
    rw [hr2]
    try dsimp only
    rw [hr3]
    try dsimp only
    refine ⟨?_, fun _ => ⟨?_, ?_⟩, fun hcontra => absurd hcontra (by decide)⟩
    · unfold destsOf
      rw [p32, p22, hd1]
      rw [List.filter_append, List.filter_append, List.map_append, List.map_append]
      rw [pairs_filter_other _ _ bNC, pairs_filter_other _ _ bEC, pairs_filter_self]
      simp only [List.map_nil, List.append_nil, List.nil_append]
      rw [List.filter_congr (fun x _ => clusterPred_eq_localPolicy svc eps x)]
    · unfold destsOf
      rw [p32, p22, hd1]
      rw [List.filter_append, List.filter_append, List.map_append, List.map_append]
      rw [pairs_filter_other _ _ bCN, pairs_filter_other _ _ bEN, pairs_filter_self]
      simp only [List.map_nil, List.append_nil, List.nil_append]
      rw [List.filter_congr (fun x _ => nodePred_eq_localPolicy svc eps hact x)]
    · unfold destsOf
      rw [p32, p22, hd1]
      rw [List.filter_append, List.filter_append, List.map_append, List.map_append]
      rw [pairs_filter_other _ _ bCE, pairs_filter_other _ _ bNE, pairs_filter_self]
      simp only [List.map_nil, List.append_nil, List.nil_append]
      rw [List.filter_congr (fun x _ => extPred_eq_localPolicy svc eps hact x)]
  | true =>
    have h2eq : setupNodePortServices envOK nsc [(k, svc)] [(k, eps)] am1 st1
        = (none, am1, st1) :=
      setupNodePortServices_single_skip nsc k svc eps am1 st1 hnp hskc
    have h3eq : setupExternalIPServices envOK nsc [(k, svc)] [(k, eps)] am1 st1
        = (none, am1, st1) :=
      setupExternalIPServices_single_skip nsc k eip svc eps am1 st1 hext hlb hskc
    unfold threePassState
    try dsimp only
    rw [hr1]
    try dsimp only
    rw [h2eq]
    try dsimp only
    rw [h3eq]
    try dsimp only
    refine ⟨?_, fun hcontra => absurd hcontra (by decide), fun _ => ⟨?_, ?_, ?_, ?_⟩⟩
    · unfold destsOf
      rw [hd1]
      rw [pairs_filter_self]
      rw [List.filter_congr (fun x _ => clusterPred_eq_localPolicy svc eps x)]
    · rw [hsv1]
      intro hmem
      exact hCN (Option.some.inj
        (congrArg IpvsSvc.Address (List.mem_singleton.1 hmem))).symm
    · rw [hsv1]
      intro hmem
      exact hCE (Option.some.inj
        (congrArg IpvsSvc.Address (List.mem_singleton.1 hmem))).symm
    · unfold destsOf
      rw [hd1]
      rw [pairs_filter_other _ _ bCN, List.map_nil]
    · unfold destsOf
      rw [hd1]
      rw [pairs_filter_other _ _ bCE, List.map_nil]

theorem C4_real_server_sets_match_local_policy_witness :
    (epsC4R.map (fun e => (e.ip, e.port))).Nodup
    ∧ (svcC4L.local' && !hasActiveEndpoints epsC4R) = true
    ∧ destsOf (threePassState nsc0 [("default/web", svcC4L)] [("default/web", epsC4R)])
        ⟨some svcC4L.clusterIP, convertSvcProtoToSysCallProto svcC4L.protocol,
          svcC4L.port, 0⟩
      = (epsC4R.filter (localPolicyPred svcC4L epsC4R)).map
          (fun e => (⟨e.ip, e.port, 1, false⟩ : Destination))
    ∧ (⟨some nsc0.nodeIP, convertSvcProtoToSysCallProto svcC4L.protocol,
        svcC4L.nodePort, 0⟩ : IpvsSvc)
      ∉ (threePassState nsc0 [("default/web", svcC4L)] [("default/web", epsC4R)]).svcs := by
  refine ⟨by decide, by decide, ?_, ?_⟩
  · exact (C4_real_server_sets_match_local_policy nsc0 "default/web" "11.22.33.44"
      svcC4L epsC4R (by decide) (by decide) rfl rfl rfl rfl
      (by decide) (by decide) (by decide)).1
  · exact ((C4_real_server_sets_match_local_policy nsc0 "default/web" "11.22.33.44"
      svcC4L epsC4R (by decide) (by decide) rfl rfl rfl rfl
      (by decide) (by decide) (by decide)).2.2 (by decide)).1
